import Mathlib

/-!
Verification of the CloudFormation template loader / intrinsic-function
evaluator of faster-sam (`faster_sam/cloudformation.py`).

Python values are shallowly embedded as the inductive `Value` (Python's
`None` is `Value.vnull`); fallible code returns `Except PyErr _` where
`PyErr` enumerates the exception classes the module can raise.  The
process environment (`os.environ`) is passed explicitly as an
association list.  Recursive evaluation carries explicit fuel, modelling
Python's finite recursion limit (`RecursionError`).
-/

namespace FasterSam

/-- Python strings are modelled as lists of characters. -/
abbrev Str := List Char

/-- Coerce a Lean string literal to the `Str` model. -/
def S (s : String) : Str := s.toList

/-- Exception classes observable from `cloudformation.py`:
built-in Python exceptions plus the module's typed errors
`CFTemplateNotFound`, `CFBadTag`, `CFBadNode`. -/
inductive PyErr where
  | typeErr
  | valueErr
  | indexErr
  | keyErr
  | attributeErr
  | unboundLocalErr
  | recursionErr
  | cfTemplateNotFound
  | cfBadTag
  | cfBadNode
deriving DecidableEq, Repr

/-- The typed load-time errors of the module (`CFTemplateNotFound`,
`CFBadTag`, `CFBadNode`). -/
def PyErr.isLoadErr : PyErr → Bool
  | .cfTemplateNotFound => true
  | .cfBadTag => true
  | .cfBadNode => true
  | _ => false

/-- Parsed YAML / Python data: `vnull` is Python `None`, dictionaries are
association lists with string keys in insertion order. -/
inductive Value where
  | vnull
  | vbool (b : Bool)
  | vint (n : Int)
  | vstr (s : Str)
  | vlist (xs : List Value)
  | vdict (kvs : List (Str × Value))

/-- Python `is None`. -/
def Value.isNull : Value → Bool
  | .vnull => true
  | _ => false

/-- Python `isinstance(x, dict)`. -/
def Value.isDict : Value → Bool
  | .vdict _ => true
  | _ => false

/-- Python `isinstance(x, str)`. -/
def Value.isStr : Value → Bool
  | .vstr _ => true
  | _ => false

/-- Python `isinstance(x, list)`. -/
def Value.isList : Value → Bool
  | .vlist _ => true
  | _ => false

/-- `os.environ`, passed explicitly. -/
abbrev Env := List (Str × Str)

/-- Environment lookup (`name in os.environ` / `os.environ[name]`). -/
def envGet : Env → Str → Option Str
  | [], _ => none
  | kv :: rest, k => if kv.1 = k then some kv.2 else envGet rest k

/-- First-match association-list lookup (Python dict access order). -/
def dictGet : List (Str × Value) → Str → Option Value
  | [], _ => none
  | kv :: rest, k => if kv.1 = k then some kv.2 else dictGet rest k

/-- Python `d[k] = v`: replace the value of an existing key, else append. -/
def dictSet : List (Str × Value) → Str → Value → List (Str × Value)
  | [], k, v => [(k, v)]
  | kv :: rest, k, v =>
    if kv.1 = k then (k, v) :: rest else kv :: dictSet rest k v

/-- Substring test (`needle in haystack` for Python strings). -/
def isSubstr (needle hay : Str) : Bool :=
  hay.tails.any (fun t => needle.isPrefixOf t)

mutual

/-- Python `==` between embedded values (`True == 1`, `False == 0`;
dictionaries compare key-wise, order-insensitively). -/
def pyEq : Value → Value → Bool
  | .vnull, .vnull => true
  | .vbool x, .vbool y => x = y
  | .vint m, .vint n => m = n
  | .vbool x, .vint n => (if x then (1 : Int) else 0) = n
  | .vint n, .vbool x => (if x then (1 : Int) else 0) = n
  | .vstr s, .vstr t => s = t
  | .vlist xs, .vlist ys => pyEqList xs ys
  | .vdict xs, .vdict ys => xs.length = ys.length && pyEqDict xs ys
  | _, _ => false

/-- Element-wise Python `==` on lists. -/
def pyEqList : List Value → List Value → Bool
  | [], [] => true
  | x :: xs, y :: ys => pyEq x y && pyEqList xs ys
  | _, _ => false

/-- Key-wise Python `==` on dictionaries. -/
def pyEqDict : List (Str × Value) → List (Str × Value) → Bool
  | [], _ => true
  | kv :: rest, ys =>
    (match dictGet ys kv.1 with
     | some w => pyEq kv.2 w
     | none => false) && pyEqDict rest ys

end

/-- Python truthiness (`if x:`). -/
def pyTruthy : Value → Bool
  | .vnull => false
  | .vbool b => b
  | .vint n => n != 0
  | .vstr s => !s.isEmpty
  | .vlist xs => !xs.isEmpty
  | .vdict kvs => !kvs.isEmpty

/-- Python `key in container`: dict-key membership (unhashable keys raise
`TypeError`), list membership by `==`, substring test for strings;
`in` on a scalar raises `TypeError`. -/
def pyIn (key container : Value) : Except PyErr Bool :=
  match container with
  | .vdict kvs =>
    match key with
    | .vlist _ => .error .typeErr
    | .vdict _ => .error .typeErr
    | .vstr s => .ok (kvs.any (fun kv => kv.1 = s))
    | _ => .ok false
  | .vlist xs => .ok (xs.any (fun x => pyEq key x))
  | .vstr s =>
    match key with
    | .vstr k => .ok (isSubstr k s)
    | _ => .error .typeErr
  | _ => .error .typeErr

/-- Python list indexing with negative-index support. -/
def pyIndexList (xs : List Value) (i : Int) : Except PyErr Value :=
  let n : Int := xs.length
  let j := if i < 0 then n + i else i
  if 0 ≤ j ∧ j < n then
    .ok (xs.getD j.toNat .vnull)
  else
    .error .indexErr

/-- Python `container[key]`. -/
def pyGetItem (container key : Value) : Except PyErr Value :=
  match container with
  | .vdict kvs =>
    match key with
    | .vlist _ => .error .typeErr
    | .vdict _ => .error .typeErr
    | .vstr s =>
      match dictGet kvs s with
      | some v => .ok v
      | none => .error .keyErr
    | _ => .error .keyErr
  | .vlist xs =>
    match key with
    | .vint i => pyIndexList xs i
    | .vbool b => pyIndexList xs (if b then 1 else 0)
    | _ => .error .typeErr
  | .vstr s =>
    match key with
    | .vint i => (pyIndexList (s.map (fun c => .vstr [c])) i)
    | .vbool b => (pyIndexList (s.map (fun c => .vstr [c])) (if b then 1 else 0))
    | _ => .error .typeErr
  | _ => .error .typeErr

/-- Python `container.get(key)` (default `None`); only dictionaries have
`.get`, anything else raises `AttributeError`. -/
def pyGet (container : Value) (key : Value) : Except PyErr Value :=
  match container with
  | .vdict kvs =>
    match key with
    | .vlist _ => .error .typeErr
    | .vdict _ => .error .typeErr
    | .vstr s => .ok ((dictGet kvs s).getD .vnull)
    | _ => .ok .vnull
  | _ => .error .attributeErr

/-- Iterable unpacking `a, b = value` (exactly two items): lists of
length 2 unpack to their elements, a 2-character string to 1-character
strings, a 2-key dict to its keys; other lengths raise `ValueError`,
non-iterables `TypeError`. -/
def unpack2 (v : Value) : Except PyErr (Value × Value) :=
  match v with
  | .vlist [a, b] => .ok (a, b)
  | .vlist _ => .error .valueErr
  | .vstr [a, b] => .ok (.vstr [a], .vstr [b])
  | .vstr _ => .error .valueErr
  | .vdict [a, b] => .ok (.vstr a.1, .vstr b.1)
  | .vdict _ => .error .valueErr
  | _ => .error .typeErr

/-- Iterable unpacking `a, b, c = value` (exactly three items). -/
def unpack3 (v : Value) : Except PyErr (Value × Value × Value) :=
  match v with
  | .vlist [a, b, c] => .ok (a, b, c)
  | .vlist _ => .error .valueErr
  | .vstr [a, b, c] => .ok (.vstr [a], .vstr [b], .vstr [c])
  | .vstr _ => .error .valueErr
  | .vdict [a, b, c] => .ok (.vstr a.1, .vstr b.1, .vstr c.1)
  | .vdict _ => .error .valueErr
  | _ => .error .typeErr

mutual

/-- Python `repr` of an embedded value (strings single-quoted without
escaping, which suffices for the values handled here). -/
def pyRepr : Value → Str
  | .vnull => S "None"
  | .vbool b => if b then S "True" else S "False"
  | .vint n => S (toString n)
  | .vstr s => '\'' :: s ++ ['\'']
  | .vlist xs => '[' :: pyReprList xs ++ [']']
  | .vdict kvs => '\x7b' :: pyReprDict kvs ++ ['\x7d']

/-- `repr` of list items, comma-separated. -/
def pyReprList : List Value → Str
  | [] => []
  | [x] => pyRepr x
  | x :: xs => pyRepr x ++ ',' :: ' ' :: pyReprList xs

/-- `repr` of dict items, comma-separated. -/
def pyReprDict : List (Str × Value) → Str
  | [] => []
  | [kv] => '\'' :: kv.1 ++ '\'' :: ':' :: ' ' :: pyRepr kv.2
  | kv :: rest => '\'' :: kv.1 ++ '\'' :: ':' :: ' ' :: pyRepr kv.2 ++ ',' :: ' ' :: pyReprDict rest

end

/-- Python `str()`: strings unchanged, scalars as printed by Python,
containers via `repr`. -/
def pyStr : Value → Str
  | .vstr s => s
  | v => pyRepr v

/-- Split a string at every occurrence of a character
(Python `s.split(c)` for a 1-character separator). -/
def splitChar (c : Char) : Str → List Str
  | [] => [[]]
  | b :: rest =>
    match splitChar c rest with
    | [] => [[b]]
    | p :: ps => if b = c then [] :: p :: ps else (b :: p) :: ps

/-- Split at the first occurrence of a character
(Python `s.split(c, 1)`). -/
def splitOnce (c : Char) : Str → List Str
  | [] => [[]]
  | b :: rest =>
    if b = c then [[], rest]
    else
      match splitOnce c rest with
      | [] => [[b]]
      | p :: ps => (b :: p) :: ps

/-- Fuel-bounded splitting at a multi-character separator. -/
def splitSubF (sep : Str) : Nat → Str → Str → List Str
  | 0, acc, s => [acc.reverse ++ s]
  | f + 1, acc, s =>
    match s with
    | [] => [acc.reverse]
    | c :: rest =>
      if sep.isPrefixOf s then acc.reverse :: splitSubF sep f [] (s.drop sep.length)
      else splitSubF sep f (c :: acc) rest

/-- Python `s.split(sep)`: an empty separator raises `ValueError`. -/
def pySplit (sep s : Str) : Except PyErr (List Str) :=
  match sep with
  | [] => .error .valueErr
  | [c] => .ok (splitChar c s)
  | _ => .ok (splitSubF sep (s.length + 1) [] s)

/-- Fuel-bounded replacement of every occurrence of `old` by `new`. -/
def replaceF (old new : Str) : Nat → Str → Str
  | 0, s => s
  | f + 1, s =>
    match s with
    | [] => []
    | c :: rest =>
      if old.isPrefixOf s then new ++ replaceF old new f (s.drop old.length)
      else c :: replaceF old new f rest

/-- Python `s.replace(old, new)` (all occurrences, left to right;
an empty `old` inserts `new` between all characters). -/
def strReplace (s old new : Str) : Str :=
  match old with
  | [] => new ++ s.foldr (fun c acc => c :: (new ++ acc)) []
  | _ :: _ => replaceF old new (s.length + 1) s

/-- Capture group of the regex `\$\x7b(.*?)\x7d` at the current
position: characters up to the first closing brace, failing if a
newline intervenes or the brace is missing (`.` does not match `\n`). -/
def grabGroup : Str → Option (Str × Str)
  | [] => none
  | '\x7d' :: rest => some ([], rest)
  | '\n' :: _ => none
  | c :: rest => (grabGroup rest).map (fun g => (c :: g.1, g.2))

/-- Fuel-bounded scan of `re.findall` for the pattern
`\$\x7b(.*?)\x7d`: all placeholder names, left to right. -/
def findMatchesF : Nat → Str → List Str
  | 0, _ => []
  | _ + 1, [] => []
  | f + 1, c :: rest =>
    if c = '$' then
      match rest with
      | '\x7b' :: rest' =>
        match grabGroup rest' with
        | some (g, rest'') => g :: findMatchesF f rest''
        | none => findMatchesF f rest
      | _ => findMatchesF f rest
    else findMatchesF f rest

/-- `re.findall` of the `Fn::Sub` placeholder pattern over a string. -/
def findMatches (s : Str) : List Str := findMatchesF (s.length + 1) s

/-- Python `int(x)` as used by `Fn::Select`: integers and booleans
convert directly, strings are parsed (optional sign, surrounding
whitespace), anything else raises `TypeError`. -/
def parseDigits (s : Str) : Option Nat :=
  if s.isEmpty then none
  else s.foldl (fun acc c => acc.bind (fun n => if c.isDigit then some (n * 10 + (c.toNat - '0'.toNat)) else none)) (some 0)

/-- `int(str)` parsing: strip whitespace, optional sign, digits. -/
def parseIntStr (s : Str) : Except PyErr Int :=
  let t := (s.dropWhile (fun c => c = ' ' ∨ c = '\t' ∨ c = '\n')).reverse
  let t := (t.dropWhile (fun c => c = ' ' ∨ c = '\t' ∨ c = '\n')).reverse
  match t with
  | '-' :: ds =>
    match parseDigits ds with
    | some n => .ok (-(n : Int))
    | none => .error .valueErr
  | '+' :: ds =>
    match parseDigits ds with
    | some n => .ok (n : Int)
    | none => .error .valueErr
  | ds =>
    match parseDigits ds with
    | some n => .ok (n : Int)
    | none => .error .valueErr

/-- Python `int(x)`. -/
def pyInt : Value → Except PyErr Int
  | .vint n => .ok n
  | .vbool b => .ok (if b then 1 else 0)
  | .vstr s => parseIntStr s
  | _ => .error .typeErr

/-- Extract the strings of a list of values (`None` on a non-string). -/
def strList : List Value → Option (List Str)
  | [] => some []
  | .vstr s :: rest => (strList rest).map (fun ss => s :: ss)
  | _ => none

/-- Python `delimiter.join(values)`: the delimiter must be a string
(`AttributeError` otherwise) and every element a string
(`TypeError` otherwise). -/
def pyStrJoin (delimiter : Value) (xs : List Value) : Except PyErr Str :=
  match delimiter with
  | .vstr d =>
    match strList xs with
    | some ss => .ok (List.intercalate d ss)
    | none => .error .typeErr
  | _ => .error .attributeErr

/-- UTF-8 bytes of a character. -/
def utf8Char (c : Char) : List Nat :=
  let n := c.toNat
  if n < 0x80 then [n]
  else if n < 0x800 then [0xC0 + n / 64, 0x80 + n % 64]
  else if n < 0x10000 then [0xE0 + n / 4096, 0x80 + n / 64 % 64, 0x80 + n % 64]
  else [0xF0 + n / 262144, 0x80 + n / 4096 % 64, 0x80 + n / 64 % 64, 0x80 + n % 64]

/-- The standard base64 alphabet. -/
def b64alphabet : Str := S "ABCDEFGHIJKLMNOPQRSTUVWXYZabcdefghijklmnopqrstuvwxyz0123456789+/"

/-- Character of the base64 alphabet at a 6-bit index. -/
def b64digit (n : Nat) : Char := b64alphabet.getD n 'A'

/-- Base64-encode a byte sequence (RFC 4648 with padding). -/
def b64encodeBytes : List Nat → Str
  | [] => []
  | [a] => [b64digit (a / 4), b64digit (a % 4 * 16), '=', '=']
  | [a, b] => [b64digit (a / 4), b64digit (a % 4 * 16 + b / 16), b64digit (b % 16 * 4), '=']
  | a :: b :: c :: rest =>
    b64digit (a / 4) :: b64digit (a % 4 * 16 + b / 16) ::
      b64digit (b % 16 * 4 + c / 64) :: b64digit (c % 64) :: b64encodeBytes rest

/-- `base64.b64encode(s.encode()).decode()`. -/
def b64encode (s : Str) : Str := b64encodeBytes (s.flatMap utf8Char)

/-- Explicit `Except` sequencing (Python: propagate a raised exception). -/
def bindE {α β : Type} (x : Except PyErr α) (f : α → Except PyErr β) : Except PyErr β :=
  match x with
  | .error e => .error e
  | .ok a => f a

/-- Python `container.get(key, default)`; only dictionaries have `.get`. -/
def pyGetD (container key default : Value) : Except PyErr Value :=
  match container with
  | .vdict kvs =>
    match key with
    | .vlist _ => .error .typeErr
    | .vdict _ => .error .typeErr
    | .vstr s => .ok ((dictGet kvs s).getD default)
    | _ => .ok default
  | _ => .error .attributeErr

namespace IntrinsicFunctions

/-- The recurring idiom
`if isinstance(x, dict): x = IntrinsicFunctions.eval(x, template); if x is None: return None`:
`none` signals the early `return None`. -/
def evalIfDict (ev : Value → Except PyErr Value) (v : Value) : Except PyErr (Option Value) :=
  if v.isDict then
    bindE (ev v) fun w => if w.isNull then .ok none else .ok (some w)
  else .ok (some v)

/-- The pseudo-parameter list of `replace_placeholders`. -/
def pseudo_parameters : List Str :=
  [S "AWS::AccountId", S "AWS::NotificationARNs", S "AWS::NoValue",
   S "AWS::Partition", S "AWS::Region", S "AWS::StackId",
   S "AWS::StackName", S "AWS::URLSuffix"]

/-- The f-string `f"$\x7b\x7b\x7bmatch\x7d\x7d\x7d"`: a `$`, an opening
brace, the name, a closing brace. -/
def placeholderOf (name : Str) : Str := '$' :: '\x7b' :: name ++ ['\x7d']

/-- The loop of `replace_placeholders`: each matched placeholder is
replaced from the environment (pseudo-parameters through the variable
named with `::` replaced by `_`); a miss returns `None`. -/
def replacePlaceholdersGo (env : Env) : Str → List Str → Value
  | result_string, [] => .vstr result_string
  | result_string, m :: rest =>
    if m ∈ pseudo_parameters then
      match envGet env (strReplace m (S "::") (S "_")) with
      | some v => replacePlaceholdersGo env (strReplace result_string (placeholderOf m) v) rest
      | none => .vnull
    else
      match envGet env m with
      | some v => replacePlaceholdersGo env (strReplace result_string (placeholderOf m) v) rest
      | none => .vnull

/-- `IntrinsicFunctions.replace_placeholders(string, matches)` with the
process environment passed explicitly. -/
def replace_placeholders (env : Env) (strng : Str) (ms : List Str) : Value :=
  replacePlaceholdersGo env strng ms

/-- `IntrinsicFunctions.base64`: base64-encode a string; non-strings
have no `.encode` (`AttributeError`). -/
def base64 (value : Value) : Except PyErr Value :=
  match value with
  | .vstr s => .ok (.vstr (b64encode s))
  | _ => .error .attributeErr

/-- `IntrinsicFunctions.find_in_map`: look up
`Mappings[map_name][top_level_key][second_level_key]`; the top-level
key may itself be an intrinsic node. -/
def find_in_map (ev : Value → Except PyErr Value) (tpl value : Value) : Except PyErr Value :=
  bindE (unpack3 value) fun mts =>
  let map_name := mts.1
  let top_level_key := mts.2.1
  let second_level_key := mts.2.2
  bindE (pyGetD tpl (.vstr (S "Mappings")) (.vdict [])) fun mappings =>
  bindE (pyIn map_name mappings) fun mem =>
  if !mem then .ok .vnull else
  bindE (evalIfDict ev top_level_key) fun otlk =>
  match otlk with
  | none => .ok .vnull
  | some tlk =>
    bindE (pyGetItem tpl (.vstr (S "Mappings"))) fun m1 =>
    bindE (pyGetItem m1 map_name) fun inner =>
    bindE (pyIn tlk inner) fun mem2 =>
    if !mem2 then .ok .vnull else
    bindE (pyGetItem inner tlk) fun obj =>
    pyGetD obj second_level_key .vnull

/-- `IntrinsicFunctions.ref`: the `Default` of a declared Parameter,
`None` otherwise (explicitly partial). -/
def ref (tpl value : Value) : Except PyErr Value :=
  bindE (pyGetD tpl (.vstr (S "Parameters")) (.vdict [])) fun params =>
  bindE (pyIn value params) fun mem =>
  if mem then
    bindE (pyGetItem tpl (.vstr (S "Parameters"))) fun ps =>
    bindE (pyGetItem ps value) fun resource =>
    pyGetD resource (.vstr (S "Default")) .vnull
  else .ok .vnull

/-- `IntrinsicFunctions.get_att`: a scalar payload is split on every
`.`; then `Resources[logical_name].Properties[attribute_name]`, with
the attribute name and the attribute value resolved recursively when
they are intrinsic nodes. -/
def get_att (ev : Value → Except PyErr Value) (tpl value : Value) : Except PyErr Value :=
  let value := match value with
    | .vstr s => .vlist ((splitChar '.' s).map .vstr)
    | v => v
  bindE (unpack2 value) fun la =>
  bindE (pyGetItem tpl (.vstr (S "Resources"))) fun resources =>
  bindE (pyIn la.1 resources) fun mem =>
  if !mem then .ok .vnull else
  bindE (evalIfDict ev la.2) fun oan =>
  match oan with
  | none => .ok .vnull
  | some an =>
    bindE (pyGetItem resources la.1) fun resource =>
    bindE (pyGetItem resource (.vstr (S "Properties"))) fun props =>
    bindE (pyIn an props) fun mem2 =>
    if !mem2 then .ok .vnull else
    bindE (pyGetItem props an) fun av =>
    bindE (evalIfDict ev av) fun oav =>
    match oav with
    | none => .ok .vnull
    | some av' => .ok av'

/-- The per-element step of the `Fn::Join` loop: a dict element is
evaluated, any other element passes through. -/
def joinElem (ev : Value → Except PyErr Value) (e : Value) : Except PyErr Value :=
  if e.isDict then ev e else .ok e

/-- The loop of `IntrinsicFunctions.join`: dict elements are evaluated
and written back into the list in place (`values[index] = element`);
an element that is `None` aborts with the list state at that point
(`false` marks the abort). -/
def joinGo (ev : Value → Except PyErr Value) : List Value → Except PyErr (Bool × List Value)
  | [] => .ok (true, [])
  | e :: rest =>
    bindE (joinElem ev e) fun e' =>
    if e'.isNull then .ok (false, e :: rest)
    else
      bindE (joinGo ev rest) fun r =>
      .ok (r.1, e' :: r.2)

/-- `IntrinsicFunctions.join` on an unpacked delimiter and element
list, returning the result together with the final (in-place updated)
element list. -/
def joinMut (ev : Value → Except PyErr Value) (delimiter : Value) (vs : List Value) :
    Except PyErr (Value × List Value) :=
  bindE (joinGo ev vs) fun r =>
  if r.1 then bindE (pyStrJoin delimiter r.2) fun s => .ok (.vstr s, r.2)
  else .ok (.vnull, r.2)

/-- `IntrinsicFunctions.join`: join the resolved elements with the
delimiter; any element resolving to `None` gives `None`. -/
def join (ev : Value → Except PyErr Value) (value : Value) : Except PyErr Value :=
  bindE (unpack2 value) fun dv =>
  match dv.2 with
  | .vlist vs => bindE (joinMut ev dv.1 vs) fun r => .ok r.1
  | .vstr [] => bindE (pyStrJoin dv.1 []) fun s => .ok (.vstr s)
  | _ => .error .typeErr

/-- The loop of `IntrinsicFunctions.select`: dict elements are
evaluated and written back in place; a dict element evaluating to
`None` aborts (`false`).  Non-dict elements are not checked. -/
def selectGo (ev : Value → Except PyErr Value) : List Value → Except PyErr (Bool × List Value)
  | [] => .ok (true, [])
  | e :: rest =>
    if e.isDict then
      bindE (ev e) fun e' =>
      if e'.isNull then .ok (false, e' :: rest)
      else bindE (selectGo ev rest) fun r => .ok (r.1, e' :: r.2)
    else bindE (selectGo ev rest) fun r => .ok (r.1, e :: r.2)

/-- Python `container[i]` with an integer subscript. -/
def pySubscriptInt (container : Value) (i : Int) : Except PyErr Value :=
  match container with
  | .vlist xs => pyIndexList xs i
  | .vstr s => pyIndexList (s.map (fun c => .vstr [c])) i
  | .vdict _ => .error .keyErr
  | _ => .error .typeErr

/-- `IntrinsicFunctions.select`: resolve index and values when they are
intrinsic nodes, resolve dict elements of a literal list, and subscript
with `int(index)` (unchecked: out of range raises `IndexError`). -/
def select (ev : Value → Except PyErr Value) (value : Value) : Except PyErr Value :=
  bindE (unpack2 value) fun iv =>
  bindE (evalIfDict ev iv.1) fun oidx =>
  match oidx with
  | none => .ok .vnull
  | some index =>
    match iv.2 with
    | .vdict _ =>
      bindE (ev iv.2) fun objs =>
      if objs.isNull then .ok .vnull
      else bindE (pyInt index) fun i => pySubscriptInt objs i
    | .vlist os =>
      bindE (selectGo ev os) fun r =>
      if !r.1 then .ok .vnull
      else bindE (pyInt index) fun i => pyIndexList r.2 i
    | .vstr s => bindE (pyInt index) fun i => pyIndexList (s.map (fun c => .vstr [c])) i
    | _ => .error .typeErr

/-- `IntrinsicFunctions.split`: resolve the source when it is an
intrinsic node, then `source.split(delimiter)`. -/
def split (ev : Value → Except PyErr Value) (value : Value) : Except PyErr Value :=
  bindE (unpack2 value) fun dv =>
  bindE (evalIfDict ev dv.2) fun osrc =>
  match osrc with
  | none => .ok .vnull
  | some source =>
    match source with
    | .vstr s =>
      match dv.1 with
      | .vstr d => bindE (pySplit d s) fun parts => .ok (.vlist (parts.map .vstr))
      | _ => .error .typeErr
    | _ => .error .attributeErr

/-- The variable loop of `IntrinsicFunctions.sub`: each entry of the
variable list is a single-item dict; its value is resolved when it is
an intrinsic node (`None` aborts); `result` is rebuilt from the
ORIGINAL string at every iteration (`result = string.replace(...)`),
and a variable name that is not a substring of the original string
aborts.  The register starts unbound (`none`). -/
def subVars (ev : Value → Except PyErr Value) (strng : Str) :
    List Value → Option Str → Except PyErr (Option (Option Str))
  | [], reg => .ok (some reg)
  | vd :: rest, _reg =>
    match vd with
    | .vdict [] => .error .indexErr
    | .vdict ((n, w) :: _) =>
      bindE (evalIfDict ev w) fun ow =>
      match ow with
      | none => .ok none
      | some w' =>
        if isSubstr n strng then
          subVars ev strng rest (some (strReplace strng (placeholderOf n) (pyStr w')))
        else .ok none
    | _ => .error .attributeErr

/-- `IntrinsicFunctions.sub`: the two-element list form substitutes the
variable list into the template string (see `subVars`), then resolves
any remaining placeholders from the environment; the plain-string form
resolves all placeholders from the environment. -/
def sub (ev : Value → Except PyErr Value) (env : Env) (value : Value) : Except PyErr Value :=
  match value with
  | .vlist l =>
    bindE (unpack2 (.vlist l)) fun sv =>
    match sv.2 with
    | .vlist [] => .error .unboundLocalErr
    | .vlist vl =>
      match sv.1 with
      | .vstr strng =>
        bindE (subVars ev strng vl none) fun os =>
        match os with
        | none => .ok .vnull
        | some none => .error .unboundLocalErr
        | some (some result) =>
          let ms := findMatches result
          if ms.isEmpty then .ok (.vstr result)
          else .ok (replace_placeholders env result ms)
      | _ => .error .typeErr
    | .vstr [] => .error .unboundLocalErr
    | .vstr _ => .error .attributeErr
    | .vdict [] => .error .unboundLocalErr
    | .vdict _ => .error .attributeErr
    | _ => .error .typeErr
  | .vstr s => .ok (replace_placeholders env s (findMatches s))
  | _ => .error .typeErr

/-- The function keys known to `IntrinsicFunctions.eval`. -/
def functionKeys : List Str :=
  [S "Fn::Base64", S "Fn::FindInMap", S "Fn::GetAtt", S "Fn::Join",
   S "Fn::Select", S "Fn::Split", S "Fn::Sub", S "Ref"]

/-- `IntrinsicFunctions.eval`: dispatch on the first key of the node
(`list(function.items())[0]`); unknown keys are logged and resolve to
`None`; non-dicts have no `.items()`; fuel models Python's recursion
limit. -/
def eval : Nat → Env → Value → Value → Except PyErr Value
  | 0, _, _, _ => .error .recursionErr
  | fuel + 1, env, tpl, node =>
    match node with
    | .vdict [] => .error .indexErr
    | .vdict ((k, v) :: _) =>
      if k = S "Fn::Base64" then base64 v
      else if k = S "Fn::FindInMap" then find_in_map (fun x => eval fuel env tpl x) tpl v
      else if k = S "Fn::GetAtt" then get_att (fun x => eval fuel env tpl x) tpl v
      else if k = S "Fn::Join" then join (fun x => eval fuel env tpl x) v
      else if k = S "Fn::Select" then select (fun x => eval fuel env tpl x) v
      else if k = S "Fn::Split" then split (fun x => eval fuel env tpl x) v
      else if k = S "Fn::Sub" then sub (fun x => eval fuel env tpl x) env v
      else if k = S "Ref" then ref tpl v
      else .ok .vnull
    | _ => .error .attributeErr

end IntrinsicFunctions

/-! ### The tagged-document loader (`multi_constructor`, `construct_getatt`) -/

/-- YAML nodes as seen by the loader's constructors: scalar, sequence
and mapping nodes, plus the bare `yaml.nodes.Node` base class
(`other`), whose `value` is `None`. -/
inductive YNode where
  | scalar (s : Str)
  | seq (ns : List YNode)
  | mapping (ps : List (YNode × YNode))
  | other

mutual

/-- The `.value` attribute of a PyYAML node: a string for scalars, the
raw child list for sequences, the raw pair list for mappings (rendered
as two-element lists), `None` for a bare node. -/
def rawVal : YNode → Value
  | .scalar s => .vstr s
  | .seq ns => .vlist (rawValList ns)
  | .mapping ps => .vlist (rawValPairs ps)
  | .other => .vnull

/-- `.value` of each node of a list. -/
def rawValList : List YNode → List Value
  | [] => []
  | n :: ns => rawVal n :: rawValList ns

/-- `.value` of each pair of a mapping. -/
def rawValPairs : List (YNode × YNode) → List Value
  | [] => []
  | p :: ps => .vlist [rawVal p.1, rawVal p.2] :: rawValPairs ps

end

mutual

/-- PyYAML plain construction of an untagged node
(`construct_scalar` / `construct_sequence` / `construct_mapping`);
scalars are kept as strings. -/
def constructNode : YNode → Except PyErr Value
  | .scalar s => .ok (.vstr s)
  | .seq ns => bindE (constructNodeList ns) fun vs => .ok (.vlist vs)
  | .mapping ps => bindE (constructNodePairs ps) fun kvs => .ok (.vdict kvs)
  | .other => .error .cfBadTag

/-- Plain construction of sequence elements. -/
def constructNodeList : List YNode → Except PyErr (List Value)
  | [] => .ok []
  | n :: ns =>
    bindE (constructNode n) fun v =>
    bindE (constructNodeList ns) fun vs => .ok (v :: vs)

/-- Plain construction of mapping entries (keys must be scalars). -/
def constructNodePairs : List (YNode × YNode) → Except PyErr (List (Str × Value))
  | [] => .ok []
  | p :: ps =>
    match p.1 with
    | .scalar k =>
      bindE (constructNode p.2) fun v =>
      bindE (constructNodePairs ps) fun kvs => .ok ((k, v) :: kvs)
    | _ => .error .typeErr

end

/-- `construct_getatt`: a string payload is split on the FIRST `.`
(`node.value.split(".", 1)`); a list payload maps each node to its raw
`.value`; a mapping payload is a list of pairs, whose tuples have no
`.value` (`AttributeError`); anything else raises `CFBadNode`. -/
def construct_getatt : YNode → Except PyErr (List Value)
  | .scalar s => .ok ((splitOnce '.' s).map .vstr)
  | .seq ns => .ok (rawValList ns)
  | .mapping _ => .error .attributeErr
  | .other => .error .cfBadNode

/-- The module constant `PREFIX`. -/
def PREFIX : Str := S "Fn::"

/-- The module constant `WITHOUT_PREFIX`. -/
def WITHOUT_PREFIX : List Str := [S "Ref", S "Condition"]

/-- `multi_constructor`: prefix the tag with `Fn::` (except `Ref` and
`Condition`), special-case `Fn::GetAtt`, then construct by node shape;
a bare node raises `CFBadTag`. -/
def multi_constructor (tag_suffix : Str) (node : YNode) : Except PyErr Value :=
  let tag := if tag_suffix ∈ WITHOUT_PREFIX then tag_suffix else PREFIX ++ tag_suffix
  if tag = S "Fn::GetAtt" then
    bindE (construct_getatt node) fun l => .ok (.vdict [(tag, .vlist l)])
  else
    match node with
    | .scalar s => .ok (.vdict [(tag, .vstr s)])
    | .seq ns => bindE (constructNodeList ns) fun vs => .ok (.vdict [(tag, .vlist vs)])
    | .mapping ps => bindE (constructNodePairs ps) fun kvs => .ok (.vdict [(tag, .vdict kvs)])
    | .other => .error .cfBadTag

/-! ### The template façade (`CloudformationTemplate`, `Function`) -/

namespace CloudformationTemplate

/-- The loop of `find_nodes`: keep the entries whose `node["Type"]`
equals the requested type string. -/
def findNodesGo : List (Str × Value) → Str → Except PyErr (List (Str × Value))
  | [], _ => .ok []
  | (k, node) :: rest, ty =>
    bindE (pyGetItem node (.vstr (S "Type"))) fun t =>
    bindE (findNodesGo rest ty) fun ns =>
    .ok (if pyEq t (.vstr ty) then (k, node) :: ns else ns)

/-- `CloudformationTemplate.find_nodes`: the sub-dictionary of `tree`
with the requested resource `Type`. -/
def find_nodes (tree : Value) (node_type : Str) : Except PyErr (List (Str × Value)) :=
  match tree with
  | .vdict kvs => findNodesGo kvs node_type
  | _ => .error .attributeErr

end CloudformationTemplate

namespace Function

/-- `Function.handler`: `Properties["Handler"]`, prefixed with a truthy
`CodeUri` through the f-string `f"..."` (which applies `str`) and with
every `/` removed. -/
def handler (resource : Value) : Except PyErr Value :=
  bindE (pyGetItem resource (.vstr (S "Properties"))) fun props =>
  bindE (pyGetItem props (.vstr (S "Handler"))) fun handler_path =>
  bindE (pyGetD props (.vstr (S "CodeUri")) .vnull) fun code_uri =>
  if pyTruthy code_uri then
    .ok (.vstr (strReplace (pyStr code_uri ++ '.' :: pyStr handler_path) (S "/") (S "")))
  else .ok handler_path

/-- The `_handler` memoisation: a cached value is returned as is,
otherwise the handler is computed once and stored. -/
def handlerCached (resource : Value) (cache : Option Value) : Except PyErr (Value × Option Value) :=
  match cache with
  | some h => .ok (h, some h)
  | none => bindE (handler resource) fun h => .ok (h, some h)

/-- `Function.environment`: the raw
`Properties.Environment.Variables` mapping (empty default). -/
def environment (resource : Value) : Except PyErr Value :=
  bindE (pyGetItem resource (.vstr (S "Properties"))) fun props =>
  bindE (pyGetD props (.vstr (S "Environment")) (.vdict [])) fun envv =>
  pyGetD envv (.vstr (S "Variables")) (.vdict [])

end Function

namespace CloudformationTemplate

/-- The merge loop of `find_environment`:
`variables.update(function.environment)` for every function resource
(later entries win). -/
def updateAll : List (Str × Value) → List (Str × Value) → Except PyErr (List (Str × Value))
  | vars, [] => .ok vars
  | vars, (_, resource) :: rest =>
    bindE (Function.environment resource) fun fe =>
    match fe with
    | .vdict kvs => updateAll (kvs.foldl (fun acc kv => dictSet acc kv.1 kv.2) vars) rest
    | _ => .error .typeErr

/-- `CloudformationTemplate.find_environment`: merge
`Globals.Function.Environment.Variables` with each function's own
variables, then stringify every value with `str()` — values are NOT
passed through the intrinsic evaluator and `None` values are kept. -/
def find_environment (tpl : Value) : Except PyErr (List (Str × Value)) :=
  bindE (pyGetD tpl (.vstr (S "Globals")) (.vdict [])) fun g =>
  bindE (pyGetD g (.vstr (S "Function")) (.vdict [])) fun gf =>
  bindE (pyGetD gf (.vstr (S "Environment")) (.vdict [])) fun ge =>
  bindE (pyGetD ge (.vstr (S "Variables")) (.vdict [])) fun gv =>
  match gv with
  | .vdict vars =>
    bindE (pyGetItem tpl (.vstr (S "Resources"))) fun resources =>
    bindE (find_nodes resources (S "AWS::Serverless::Function")) fun fns =>
    bindE (updateAll vars fns) fun merged =>
    .ok (merged.map (fun kv => (kv.1, Value.vstr (pyStr kv.2))))
  | _ => .error .attributeErr

/-- The override loop of `set_parameters`:
`Parameters[name]["Default"] = value` for every override whose name is
declared. -/
def setParamsGo : Value → List (Str × Str) → Except PyErr Value
  | tpl, [] => .ok tpl
  | tpl, (name, value) :: rest =>
    bindE (pyGetItem tpl (.vstr (S "Parameters"))) fun params =>
    bindE (pyIn (.vstr name) params) fun mem =>
    if mem then
      bindE (pyGetItem params (.vstr name)) fun p =>
      match p, params, tpl with
      | .vdict pkvs, .vdict pskvs, .vdict tkvs =>
        setParamsGo (.vdict (dictSet tkvs (S "Parameters")
          (.vdict (dictSet pskvs name (.vdict (dictSet pkvs (S "Default") (.vstr value))))))) rest
      | _, _, _ => .error .typeErr
    else setParamsGo tpl rest

/-- `CloudformationTemplate.set_parameters`: a no-op when the template
has no `Parameters` key, otherwise apply every declared override onto
`Parameters[name].Default`. -/
def set_parameters (tpl : Value) (parameters : List (Str × Str)) : Except PyErr Value :=
  bindE (pyIn (.vstr (S "Parameters")) tpl) fun mem =>
  if !mem then .ok tpl
  else setParamsGo tpl parameters

end CloudformationTemplate

/-! ### Shared lemmas -/

/-- Key membership agrees with lookup success. -/
theorem dictGet_isSome_any (kvs : List (Str × Value)) (k : Str) :
    (kvs.any fun kv => kv.1 = k) = (dictGet kvs k).isSome := by
  induction kvs with
  | nil => rfl
  | cons kv rest ih =>
    by_cases h : kv.1 = k <;> simp [dictGet, h, ih]

/-- Lookup after an in-place write at the same key. -/
theorem dictGet_dictSet_self (kvs : List (Str × Value)) (k : Str) (v : Value) :
    dictGet (dictSet kvs k v) k = some v := by
  induction kvs with
  | nil => simp [dictSet, dictGet]
  | cons kv rest ih =>
    by_cases h : kv.1 = k <;> simp [dictSet, dictGet, h, ih]

/-- `split(c, 1)` at the first separator occurrence. -/
theorem splitOnce_first (c : Char) (p q : Str) (hp : c ∉ p) :
    splitOnce c (p ++ c :: q) = [p, q] := by
  induction p with
  | nil => simp [splitOnce]
  | cons b bs ih =>
    have hb : b ≠ c := fun h => hp (h ▸ List.mem_cons_self b bs)
    have hbs : c ∉ bs := fun h => hp (List.mem_cons_of_mem _ h)
    simp [splitOnce, hb, ih hbs]

/-- `split(c)` of a separator-free string. -/
theorem splitChar_not_mem (c : Char) (q : Str) (hq : c ∉ q) :
    splitChar c q = [q] := by
  induction q with
  | nil => rfl
  | cons b bs ih =>
    have hb : b ≠ c := fun h => hq (h ▸ List.mem_cons_self b bs)
    have hbs : c ∉ bs := fun h => hq (List.mem_cons_of_mem _ h)
    simp [splitChar, hb, ih hbs]

/-- `split(c)` of a string with exactly one separator occurrence. -/
theorem splitChar_single (c : Char) (p q : Str) (hp : c ∉ p) (hq : c ∉ q) :
    splitChar c (p ++ c :: q) = [p, q] := by
  induction p with
  | nil => simp [splitChar, splitChar_not_mem c q hq]
  | cons b bs ih =>
    have hb : b ≠ c := fun h => hp (h ▸ List.mem_cons_self b bs)
    have hbs : c ∉ bs := fun h => hp (List.mem_cons_of_mem _ h)
    simp [splitChar, hb, ih hbs]

/-- `.value` of a list of scalar nodes. -/
theorem rawValList_map_scalar (ss : List Str) :
    rawValList (ss.map .scalar) = ss.map .vstr := by
  induction ss with
  | nil => rfl
  | cons s rest ih => simp [rawValList, rawVal, ih]

/-! ### C7 — handler path construction -/

/-- A function resource with `CodeUri: hello_world`. -/
def handlerResA : Value :=
  .vdict [(S "Properties", .vdict
    [(S "CodeUri", .vstr (S "hello_world")), (S "Handler", .vstr (S "app.lambda_handler"))])]

/-- A function resource with `CodeUri: hello_world/` (trailing slash). -/
def handlerResB : Value :=
  .vdict [(S "Properties", .vdict
    [(S "CodeUri", .vstr (S "hello_world/")), (S "Handler", .vstr (S "app.lambda_handler"))])]

/-- C7: `Function.handler` equals `"{CodeUri}.{Handler}"` with every
`/` removed when `CodeUri` is present and non-empty, and the raw
`Handler` otherwise; re-access through the `_handler` cache returns the
same value; and both golden cases produce
`hello_world.app.lambda_handler`. -/
theorem C7_handler_path (rsrc props : List (Str × Value)) (h : Str)
    (hprops : dictGet rsrc (S "Properties") = some (.vdict props))
    (hh : dictGet props (S "Handler") = some (.vstr h)) :
    (∀ cu : Str, cu ≠ [] → dictGet props (S "CodeUri") = some (.vstr cu) →
      Function.handler (.vdict rsrc) = .ok (.vstr (strReplace (cu ++ '.' :: h) (S "/") (S "")))) ∧
    (dictGet props (S "CodeUri") = none ∨ dictGet props (S "CodeUri") = some (.vstr []) ∨
        dictGet props (S "CodeUri") = some .vnull →
      Function.handler (.vdict rsrc) = .ok (.vstr h)) ∧
    (∀ hv cache, Function.handlerCached (.vdict rsrc) none = .ok (hv, cache) →
      Function.handlerCached (.vdict rsrc) cache = .ok (hv, cache)) ∧
    Function.handler handlerResA = .ok (.vstr (S "hello_world.app.lambda_handler")) ∧
    Function.handler handlerResB = .ok (.vstr (S "hello_world.app.lambda_handler")) := by
  refine ⟨?_, ?_, ?_, by rfl, by rfl⟩
  · intro cu hcu hget
    simp [Function.handler, bindE, pyGetItem, pyGetD, hprops, hh, hget, pyTruthy, pyStr,
      List.isEmpty_iff, hcu]
  · rintro (hget | hget | hget) <;>
      simp [Function.handler, bindE, pyGetItem, pyGetD, hprops, hh, hget, pyTruthy]
  · intro hv cache hfirst
    cases he : Function.handler (.vdict rsrc) with
    | error e => simp [Function.handlerCached, he, bindE] at hfirst
    | ok hw =>
      simp [Function.handlerCached, he, bindE] at hfirst
      simp [Function.handlerCached, ← hfirst.2, hfirst.1]

/-- C7 witness: the golden case through the general clause. -/
theorem C7_handler_path_witness :
    Function.handler handlerResA = .ok (.vstr (S "hello_world.app.lambda_handler")) :=
  (C7_handler_path
    [(S "Properties", .vdict
      [(S "CodeUri", .vstr (S "hello_world")), (S "Handler", .vstr (S "app.lambda_handler"))])]
    [(S "CodeUri", .vstr (S "hello_world")), (S "Handler", .vstr (S "app.lambda_handler"))]
    (S "app.lambda_handler") rfl rfl).2.2.2.1

/-! ### C8 — short-form tag rewriting -/

/-- C8: every recognized short-form tag on a scalar, sequence or
mapping node is rewritten to the canonical single-key mapping with the
`Fn::` prefix (`Ref`/`Condition` exempt); a `GetAtt` scalar is split on
the first `.` into a two-element list, a `GetAtt` sequence is kept as
the list of its scalar payloads; golden:
`!GetAtt Resource.Arn` gives `Fn::GetAtt: [Resource, Arn]`. -/
theorem C8_multi_constructor :
    (∀ tag s : Str, tag ∉ WITHOUT_PREFIX → PREFIX ++ tag ≠ S "Fn::GetAtt" →
      multi_constructor tag (.scalar s) = .ok (.vdict [(PREFIX ++ tag, .vstr s)])) ∧
    (∀ (tag : Str) (ns : List YNode) (vs : List Value),
      tag ∉ WITHOUT_PREFIX → PREFIX ++ tag ≠ S "Fn::GetAtt" →
      constructNodeList ns = .ok vs →
      multi_constructor tag (.seq ns) = .ok (.vdict [(PREFIX ++ tag, .vlist vs)])) ∧
    (∀ (tag : Str) (ps : List (YNode × YNode)) (kvs : List (Str × Value)),
      tag ∉ WITHOUT_PREFIX → PREFIX ++ tag ≠ S "Fn::GetAtt" →
      constructNodePairs ps = .ok kvs →
      multi_constructor tag (.mapping ps) = .ok (.vdict [(PREFIX ++ tag, .vdict kvs)])) ∧
    (∀ (tag s : Str), tag ∈ WITHOUT_PREFIX →
      multi_constructor tag (.scalar s) = .ok (.vdict [(tag, .vstr s)])) ∧
    (∀ p q : Str, '.' ∉ p →
      multi_constructor (S "GetAtt") (.scalar (p ++ '.' :: q)) =
        .ok (.vdict [(S "Fn::GetAtt", .vlist [.vstr p, .vstr q])])) ∧
    (∀ ss : List Str,
      multi_constructor (S "GetAtt") (.seq (ss.map .scalar)) =
        .ok (.vdict [(S "Fn::GetAtt", .vlist (ss.map .vstr))])) ∧
    multi_constructor (S "GetAtt") (.scalar (S "Resource.Arn")) =
      .ok (.vdict [(S "Fn::GetAtt", .vlist [.vstr (S "Resource"), .vstr (S "Arn")])]) := by
  refine ⟨?_, ?_, ?_, ?_, ?_, ?_, by rfl⟩
  · intro tag s hmem hga
    simp [multi_constructor, hmem, hga]
  · intro tag ns vs hmem hga hc
    simp [multi_constructor, hmem, hga, hc, bindE]
  · intro tag ps kvs hmem hga hc
    simp [multi_constructor, hmem, hga, hc, bindE]
  · intro tag s hmem
    simp only [WITHOUT_PREFIX, List.mem_cons, List.mem_singleton, List.not_mem_nil,
      or_false] at hmem
    rcases hmem with h | h <;> subst h <;> rfl
  · intro p q hp
    simp [multi_constructor, construct_getatt, bindE, splitOnce_first '.' p q hp,
      WITHOUT_PREFIX, PREFIX, S]
  · intro ss
    simp [multi_constructor, construct_getatt, bindE, rawValList_map_scalar,
      WITHOUT_PREFIX, PREFIX, S]

/-- Dispatch of `eval` on a `Ref` node. -/
theorem eval_dispatch_ref (fuel : Nat) (env : Env) (tpl v : Value) (rest : List (Str × Value)) :
    IntrinsicFunctions.eval (fuel + 1) env tpl (.vdict ((S "Ref", v) :: rest)) =
      IntrinsicFunctions.ref tpl v := rfl

/-- Dispatch of `eval` on an `Fn::GetAtt` node. -/
theorem eval_dispatch_getatt (fuel : Nat) (env : Env) (tpl v : Value) (rest : List (Str × Value)) :
    IntrinsicFunctions.eval (fuel + 1) env tpl (.vdict ((S "Fn::GetAtt", v) :: rest)) =
      IntrinsicFunctions.get_att (fun x => IntrinsicFunctions.eval fuel env tpl x) tpl v := rfl

/-- Dispatch of `eval` on an `Fn::Join` node. -/
theorem eval_dispatch_join (fuel : Nat) (env : Env) (tpl v : Value) (rest : List (Str × Value)) :
    IntrinsicFunctions.eval (fuel + 1) env tpl (.vdict ((S "Fn::Join", v) :: rest)) =
      IntrinsicFunctions.join (fun x => IntrinsicFunctions.eval fuel env tpl x) v := rfl

/-- Dispatch of `eval` on an `Fn::Select` node. -/
theorem eval_dispatch_select (fuel : Nat) (env : Env) (tpl v : Value) (rest : List (Str × Value)) :
    IntrinsicFunctions.eval (fuel + 1) env tpl (.vdict ((S "Fn::Select", v) :: rest)) =
      IntrinsicFunctions.select (fun x => IntrinsicFunctions.eval fuel env tpl x) v := rfl

/-- Dispatch of `eval` on an `Fn::Sub` node. -/
theorem eval_dispatch_sub (fuel : Nat) (env : Env) (tpl v : Value) (rest : List (Str × Value)) :
    IntrinsicFunctions.eval (fuel + 1) env tpl (.vdict ((S "Fn::Sub", v) :: rest)) =
      IntrinsicFunctions.sub (fun x => IntrinsicFunctions.eval fuel env tpl x) env v := rfl

/-! ### C9 — Ref resolves declared Parameter defaults -/

/-- The template value after
`set_parameters` writes `Parameters[name]["Default"] = v`. -/
def overriddenTpl (tkvs pkvs pe : List (Str × Value)) (name : Str) (v : Str) : Value :=
  .vdict (dictSet tkvs (S "Parameters")
    (.vdict (dictSet pkvs name (.vdict (dictSet pe (S "Default") (.vstr v))))))

/-- C9: `eval` of a `Ref` node returns the `Default` of the declared
Parameter of that name — reflecting an override applied by
`set_parameters` onto `Parameters[name].Default` — and `None` when the
name is not a declared Parameter. -/
theorem C9_ref_parameter (fuel : Nat) (env : Env)
    (tkvs pkvs pe : List (Str × Value)) (name : Str)
    (hp : dictGet tkvs (S "Parameters") = some (.vdict pkvs)) :
    (dictGet pkvs name = some (.vdict pe) →
      IntrinsicFunctions.eval (fuel + 1) env (.vdict tkvs) (.vdict [(S "Ref", .vstr name)]) =
        .ok ((dictGet pe (S "Default")).getD .vnull)) ∧
    (dictGet pkvs name = none →
      IntrinsicFunctions.eval (fuel + 1) env (.vdict tkvs) (.vdict [(S "Ref", .vstr name)]) =
        .ok .vnull) ∧
    (∀ v : Str, dictGet pkvs name = some (.vdict pe) →
      CloudformationTemplate.set_parameters (.vdict tkvs) [(name, v)] =
          .ok (overriddenTpl tkvs pkvs pe name v) ∧
        IntrinsicFunctions.eval (fuel + 1) env (overriddenTpl tkvs pkvs pe name v)
            (.vdict [(S "Ref", .vstr name)]) = .ok (.vstr v)) ∧
    (∀ (kvs : List (Str × Value)) (nm : Str), dictGet kvs (S "Parameters") = none →
      IntrinsicFunctions.eval (fuel + 1) env (.vdict kvs) (.vdict [(S "Ref", .vstr nm)]) =
        .ok .vnull) := by
  refine ⟨?_, ?_, ?_, ?_⟩
  · intro ha
    rw [eval_dispatch_ref]
    simp [IntrinsicFunctions.ref, bindE, pyGetD, pyIn, pyGetItem, hp, ha, dictGet_isSome_any]
  · intro ha
    rw [eval_dispatch_ref]
    simp [IntrinsicFunctions.ref, bindE, pyGetD, pyIn, pyGetItem, hp, ha, dictGet_isSome_any]
  · intro v ha
    constructor
    · simp [CloudformationTemplate.set_parameters, CloudformationTemplate.setParamsGo,
        bindE, pyIn, pyGetItem, hp, ha, dictGet_isSome_any, overriddenTpl]
    · rw [eval_dispatch_ref]
      simp [IntrinsicFunctions.ref, bindE, pyGetD, pyIn, pyGetItem, overriddenTpl,
        dictGet_isSome_any, dictGet_dictSet_self]
  · intro kvs nm ha
    rw [eval_dispatch_ref]
    simp [IntrinsicFunctions.ref, bindE, pyGetD, pyIn, pyGetItem, ha, dictGet_isSome_any]

/-- C9 witness: an `Environment` parameter overridden to
`development` resolves through `Ref`. -/
theorem C9_ref_parameter_witness :
    CloudformationTemplate.set_parameters
        (.vdict [(S "Parameters", .vdict [(S "Environment", .vdict [(S "Default", .vstr (S "prod"))])])])
        [(S "Environment", S "development")] =
      .ok (overriddenTpl
        [(S "Parameters", .vdict [(S "Environment", .vdict [(S "Default", .vstr (S "prod"))])])]
        [(S "Environment", .vdict [(S "Default", .vstr (S "prod"))])]
        [(S "Default", .vstr (S "prod"))] (S "Environment") (S "development")) ∧
      IntrinsicFunctions.eval 1 []
        (overriddenTpl
          [(S "Parameters", .vdict [(S "Environment", .vdict [(S "Default", .vstr (S "prod"))])])]
          [(S "Environment", .vdict [(S "Default", .vstr (S "prod"))])]
          [(S "Default", .vstr (S "prod"))] (S "Environment") (S "development"))
        (.vdict [(S "Ref", .vstr (S "Environment"))]) = .ok (.vstr (S "development")) :=
  (C9_ref_parameter 0 []
    [(S "Parameters", .vdict [(S "Environment", .vdict [(S "Default", .vstr (S "prod"))])])]
    [(S "Environment", .vdict [(S "Default", .vstr (S "prod"))])]
    [(S "Default", .vstr (S "prod"))] (S "Environment") rfl).2.2.1 (S "development") rfl

/-! ### C10 — scalar and list GetAtt forms -/

/-- A template whose resource `A` has a property literally named
`B.C`. -/
def twoDotTpl : Value :=
  .vdict [(S "Resources", .vdict [(S "A", .vdict
    [(S "Type", .vstr (S "AWS::SQS::Queue")),
     (S "Properties", .vdict [(S "B.C", .vstr (S "x"))])])])]

/-- C10: for a scalar payload with exactly one dot, the scalar and
two-element list forms of `Fn::GetAtt` evaluate identically (the
evaluator splits the scalar on every dot, the loader only on the
first); with two dots the forms disagree: the scalar form fails to
unpack (`ValueError`) where the list form resolves. -/
theorem C10_getatt_forms (fuel : Nat) (env : Env) (tpl : Value) (p q : Str)
    (hp : '.' ∉ p) (hq : '.' ∉ q) :
    IntrinsicFunctions.eval fuel env tpl (.vdict [(S "Fn::GetAtt", .vstr (p ++ '.' :: q))]) =
      IntrinsicFunctions.eval fuel env tpl (.vdict [(S "Fn::GetAtt", .vlist [.vstr p, .vstr q])]) ∧
    IntrinsicFunctions.eval 10 [] twoDotTpl (.vdict [(S "Fn::GetAtt", .vstr (S "A.B.C"))]) =
      .error .valueErr ∧
    IntrinsicFunctions.eval 10 [] twoDotTpl
        (.vdict [(S "Fn::GetAtt", .vlist [.vstr (S "A"), .vstr (S "B.C")])]) =
      .ok (.vstr (S "x")) := by
  refine ⟨?_, by rfl, by rfl⟩
  cases fuel with
  | zero => rfl
  | succ f =>
    rw [eval_dispatch_getatt, eval_dispatch_getatt]
    simp [IntrinsicFunctions.get_att, splitChar_single '.' p q hp hq]

/-- C10 witness: the equivalence at a concrete one-dot payload. -/
theorem C10_getatt_forms_witness :
    IntrinsicFunctions.eval 10 [] twoDotTpl (.vdict [(S "Fn::GetAtt", .vstr (S "A.Type"))]) =
      IntrinsicFunctions.eval 10 [] twoDotTpl
        (.vdict [(S "Fn::GetAtt", .vlist [.vstr (S "A"), .vstr (S "Type")])]) :=
  (C10_getatt_forms 10 [] twoDotTpl (S "A") (S "Type") (by decide) (by decide)).1

/-! ### C6 — Fn::Join never partially succeeds -/

/-- `strList` of a mapped string list. -/
theorem strList_map_vstr (ts : List Str) : strList (ts.map .vstr) = some ts := by
  induction ts with
  | nil => rfl
  | cons t rest ih => simp [strList, ih]

/-- Joining string-valued elements. -/
theorem pyStrJoin_strs (d : Str) (ss : List Str) :
    pyStrJoin (.vstr d) (ss.map .vstr) = .ok (List.intercalate d ss) := by
  simp [pyStrJoin, strList_map_vstr]

/-- The join loop succeeds when every element resolves to a string. -/
theorem joinGo_resolved (ev : Value → Except PyErr Value) (vs : List Value) (ss : List Str)
    (h : List.Forall₂ (fun e s => IntrinsicFunctions.joinElem ev e = .ok (.vstr s)) vs ss) :
    IntrinsicFunctions.joinGo ev vs = .ok (true, ss.map .vstr) := by
  induction h with
  | nil => rfl
  | cons h1 _ ih => simp [IntrinsicFunctions.joinGo, h1, bindE, ih, Value.isNull]

/-- The join loop aborts at the first element resolving to `None`. -/
theorem joinGo_null (ev : Value → Except PyErr Value) (l : List Value) (e : Value)
    (r : List Value) (ss : List Str)
    (hl : List.Forall₂ (fun x s => IntrinsicFunctions.joinElem ev x = .ok (.vstr s)) l ss)
    (he : IntrinsicFunctions.joinElem ev e = .ok .vnull) :
    IntrinsicFunctions.joinGo ev (l ++ e :: r) = .ok (false, ss.map .vstr ++ e :: r) := by
  induction hl with
  | nil => simp [IntrinsicFunctions.joinGo, he, bindE, Value.isNull]
  | cons h1 _ ih => simp [IntrinsicFunctions.joinGo, h1, bindE, ih, Value.isNull]

/-- A document declaring parameter `X` with default `c`. -/
def joinDocP : Value :=
  .vdict [(S "Parameters", .vdict [(S "X", .vdict [(S "Default", .vstr (S "c"))])])]

/-- The golden join node `Fn::Join [".", ["a", "b", Ref X]]`. -/
def joinGolden : Value :=
  .vdict [(S "Fn::Join", .vlist [.vstr (S "."),
    .vlist [.vstr (S "a"), .vstr (S "b"), .vdict [(S "Ref", .vstr (S "X"))]]])]

/-- C6: a join whose elements all resolve to strings returns them
joined with the delimiter; any element resolving to `None` makes the
whole join `None` — never a partial result.  Golden: the example node
gives `a.b.c` when `Ref X` resolves to `c` and `None` when `X` is
undeclared. -/
theorem C6_join (fuel : Nat) (env : Env) (tpl : Value) (d : Str) (vs : List Value) :
    (∀ ss : List Str,
      List.Forall₂
        (fun e s => IntrinsicFunctions.joinElem (fun x => IntrinsicFunctions.eval fuel env tpl x) e = .ok (.vstr s))
        vs ss →
      IntrinsicFunctions.eval (fuel + 1) env tpl
          (.vdict [(S "Fn::Join", .vlist [.vstr d, .vlist vs])]) =
        .ok (.vstr (List.intercalate d ss))) ∧
    (∀ (l : List Value) (e : Value) (r : List Value) (ss : List Str),
      vs = l ++ e :: r →
      List.Forall₂
        (fun x s => IntrinsicFunctions.joinElem (fun x => IntrinsicFunctions.eval fuel env tpl x) x = .ok (.vstr s))
        l ss →
      IntrinsicFunctions.joinElem (fun x => IntrinsicFunctions.eval fuel env tpl x) e = .ok .vnull →
      IntrinsicFunctions.eval (fuel + 1) env tpl
          (.vdict [(S "Fn::Join", .vlist [.vstr d, .vlist vs])]) = .ok .vnull) ∧
    IntrinsicFunctions.eval 10 [] joinDocP joinGolden = .ok (.vstr (S "a.b.c")) ∧
    IntrinsicFunctions.eval 10 [] (.vdict []) joinGolden = .ok .vnull := by
  refine ⟨?_, ?_, by rfl, by rfl⟩
  · intro ss h
    rw [eval_dispatch_join]
    simp [IntrinsicFunctions.join, IntrinsicFunctions.joinMut, bindE, unpack2,
      joinGo_resolved _ _ _ h, pyStrJoin_strs]
  · intro l e r ss hvs hl he
    subst hvs
    rw [eval_dispatch_join]
    simp [IntrinsicFunctions.join, IntrinsicFunctions.joinMut, bindE, unpack2,
      joinGo_null _ _ _ _ _ hl he]

/-- C6 witness: the resolved golden case through the general clause. -/
theorem C6_join_witness :
    IntrinsicFunctions.eval 10 [] joinDocP
        (.vdict [(S "Fn::Join", .vlist [.vstr (S "."),
          .vlist [.vstr (S "a"), .vstr (S "b"), .vdict [(S "Ref", .vstr (S "X"))]]])]) =
      .ok (.vstr (S "a.b.c")) :=
  (C6_join 9 [] joinDocP (S ".")
      [.vstr (S "a"), .vstr (S "b"), .vdict [(S "Ref", .vstr (S "X"))]]).1
    [S "a", S "b", S "c"]
    (by refine .cons ?_ (.cons ?_ (.cons ?_ .nil)) <;> rfl)

/-! ### C5 — Fn::Select indexing -/

/-- Whether an exception was raised. -/
def raisesException : Except PyErr Value → Bool
  | .error _ => true
  | .ok _ => false

/-- In-range Python list indexing. -/
theorem pyIndexList_inRange (xs : List Value) (i : Int) (h0 : 0 ≤ i)
    (hl : i < (xs.length : Int)) :
    pyIndexList xs i = .ok (xs.getD i.toNat .vnull) := by
  simp only [pyIndexList]
  rw [if_neg (show ¬ i < 0 by omega),
    if_pos (show 0 ≤ i ∧ i < (xs.length : Int) from ⟨h0, hl⟩)]

/-- Indexing at or beyond the length raises `IndexError`. -/
theorem pyIndexList_oorHigh (xs : List Value) (i : Int) (h : (xs.length : Int) ≤ i) :
    pyIndexList xs i = .error .indexErr := by
  simp only [pyIndexList]
  rw [if_neg (show ¬ i < 0 by omega),
    if_neg (show ¬ (0 ≤ i ∧ i < (xs.length : Int)) by omega)]

/-- Indexing below `-len` raises `IndexError`. -/
theorem pyIndexList_oorLow (xs : List Value) (i : Int) (h : i < -(xs.length : Int)) :
    pyIndexList xs i = .error .indexErr := by
  simp only [pyIndexList]
  rw [if_pos (show i < 0 by omega),
    if_neg (show ¬ (0 ≤ (xs.length : Int) + i ∧ (xs.length : Int) + i < (xs.length : Int))
      by omega)]

/-- The element-wise contract of the `Fn::Select` loop: a dict element
evaluates to the (non-`None`) written value, any other passes through
unchanged. -/
def selectResolves (ev : Value → Except PyErr Value) (e e' : Value) : Prop :=
  if e.isDict then ev e = .ok e' ∧ e'.isNull = false else e' = e

/-- The select loop succeeds when every element resolves. -/
theorem selectGo_resolved (ev : Value → Except PyErr Value) (os os' : List Value)
    (h : List.Forall₂ (selectResolves ev) os os') :
    IntrinsicFunctions.selectGo ev os = .ok (true, os') := by
  induction h with
  | nil => rfl
  | cons h1 _ ih =>
    rename_i e e' rest rest' _
    by_cases hd : e.isDict
    · have h1' := h1
      simp only [selectResolves, if_pos hd] at h1'
      simp [IntrinsicFunctions.selectGo, hd, h1'.1, h1'.2, bindE, ih]
    · have h1' := h1
      simp only [selectResolves, if_neg hd] at h1'
      subst h1'
      simp [IntrinsicFunctions.selectGo, hd, bindE, ih]

/-- The select loop aborts at the first dict element that evaluates to
`None` (the `None` is written back before the check). -/
theorem selectGo_null (ev : Value → Except PyErr Value) (l : List Value) (e : Value)
    (r : List Value) (l' : List Value)
    (hl : List.Forall₂ (selectResolves ev) l l')
    (hd : e.isDict = true) (he : ev e = .ok .vnull) :
    ∃ tail, IntrinsicFunctions.selectGo ev (l ++ e :: r) = .ok (false, tail) := by
  induction hl with
  | nil =>
    exact ⟨.vnull :: r, by simp [IntrinsicFunctions.selectGo, hd, he, bindE, Value.isNull]⟩
  | cons h1 h2 ih =>
    rename_i x x' rest rest'
    obtain ⟨tail, htail⟩ := ih
    by_cases hx : x.isDict
    · have h1' := h1
      simp only [selectResolves, if_pos hx] at h1'
      exact ⟨x' :: tail, by simp [IntrinsicFunctions.selectGo, hx, h1'.1, h1'.2, bindE, htail]⟩
    · have h1' := h1
      simp only [selectResolves, if_neg hx] at h1'
      subst h1'
      exact ⟨x' :: tail, by simp [IntrinsicFunctions.selectGo, hx, bindE, htail]⟩

/-- C5 counterexample: the claim says an out-of-range index yields
`None`, but `eval` of `Fn::Select [1, ["a"]]` raises `IndexError`
(`objects[int(index)]` is unchecked). -/
theorem C5_select_counterexample :
    IntrinsicFunctions.eval 10 [] (.vdict [])
        (.vdict [(S "Fn::Select", .vlist [.vint 1, .vlist [.vstr (S "a")]])]) =
      .error .indexErr ∧
    raisesException (IntrinsicFunctions.eval 10 [] (.vdict [])
        (.vdict [(S "Fn::Select", .vlist [.vint 1, .vlist [.vstr (S "a")]])])) = true :=
  ⟨rfl, rfl⟩

/-- C5 amended: `Fn::Select` resolves the index and the elements of the
value list, returning the element at the resolved index and `None`
when a resolved element is `None`; an out-of-range index (at or beyond
the length, or below the negative length) raises `IndexError` instead
of yielding `None`. -/
theorem C5_select_amended (fuel : Nat) (env : Env) (tpl : Value) (i : Int) (os : List Value) :
    (∀ os' : List Value,
      List.Forall₂ (selectResolves (fun x => IntrinsicFunctions.eval fuel env tpl x)) os os' →
      (0 ≤ i → i < (os'.length : Int) →
        IntrinsicFunctions.eval (fuel + 1) env tpl
            (.vdict [(S "Fn::Select", .vlist [.vint i, .vlist os])]) =
          .ok (os'.getD i.toNat .vnull)) ∧
      ((os'.length : Int) ≤ i →
        IntrinsicFunctions.eval (fuel + 1) env tpl
            (.vdict [(S "Fn::Select", .vlist [.vint i, .vlist os])]) = .error .indexErr) ∧
      (i < -(os'.length : Int) →
        IntrinsicFunctions.eval (fuel + 1) env tpl
            (.vdict [(S "Fn::Select", .vlist [.vint i, .vlist os])]) = .error .indexErr)) ∧
    (∀ (l : List Value) (e : Value) (r l' : List Value),
      os = l ++ e :: r →
      List.Forall₂ (selectResolves (fun x => IntrinsicFunctions.eval fuel env tpl x)) l l' →
      e.isDict = true →
      IntrinsicFunctions.eval fuel env tpl e = .ok .vnull →
      IntrinsicFunctions.eval (fuel + 1) env tpl
          (.vdict [(S "Fn::Select", .vlist [.vint i, .vlist os])]) = .ok .vnull) := by
  constructor
  · intro os' h
    refine ⟨?_, ?_, ?_⟩
    · intro h0 hl
      rw [eval_dispatch_select]
      simp [IntrinsicFunctions.select, bindE, unpack2, IntrinsicFunctions.evalIfDict,
        Value.isDict, selectGo_resolved _ _ _ h, pyInt, pyIndexList_inRange os' i h0 hl]
    · intro hge
      rw [eval_dispatch_select]
      simp [IntrinsicFunctions.select, bindE, unpack2, IntrinsicFunctions.evalIfDict,
        Value.isDict, selectGo_resolved _ _ _ h, pyInt, pyIndexList_oorHigh os' i hge]
    · intro hlt
      rw [eval_dispatch_select]
      simp [IntrinsicFunctions.select, bindE, unpack2, IntrinsicFunctions.evalIfDict,
        Value.isDict, selectGo_resolved _ _ _ h, pyInt, pyIndexList_oorLow os' i hlt]
  · intro l e r l' hos hl hd he
    subst hos
    obtain ⟨tail, htail⟩ := selectGo_null _ l e r l' hl hd he
    rw [eval_dispatch_select]
    simp [IntrinsicFunctions.select, bindE, unpack2, IntrinsicFunctions.evalIfDict,
      Value.isDict, htail]

/-- C5 witness: an in-range selection with a resolved `Ref` element and
a `None`-resolving element through the general clauses. -/
theorem C5_select_amended_witness :
    IntrinsicFunctions.eval 10 [] joinDocP
        (.vdict [(S "Fn::Select", .vlist [.vint 1,
          .vlist [.vstr (S "a"), .vdict [(S "Ref", .vstr (S "X"))]]])]) =
      .ok (.vstr (S "c")) ∧
    IntrinsicFunctions.eval 10 [] (.vdict [])
        (.vdict [(S "Fn::Select", .vlist [.vint 0,
          .vlist [.vdict [(S "Ref", .vstr (S "X"))]]])]) = .ok .vnull :=
  ⟨((C5_select_amended 9 [] joinDocP 1
        [.vstr (S "a"), .vdict [(S "Ref", .vstr (S "X"))]]).1
      [.vstr (S "a"), .vstr (S "c")]
      (by refine .cons ?_ (.cons ?_ .nil)
          · exact rfl
          · exact ⟨rfl, rfl⟩)).1 (by decide) (by decide),
   (C5_select_amended 9 [] (.vdict []) 0 [.vdict [(S "Ref", .vstr (S "X"))]]).2
      [] (.vdict [(S "Ref", .vstr (S "X"))]) [] [] rfl .nil rfl rfl⟩

/-! ### C3 — mutation of the Document during evaluation -/

/-- Strings extracted by `strList` determine the list. -/
theorem strList_some_eq (xs : List Value) (ss : List Str) (h : strList xs = some ss) :
    xs = ss.map .vstr := by
  induction xs generalizing ss with
  | nil => cases h; rfl
  | cons x rest ih =>
    cases x <;> simp [strList] at h
    obtain ⟨ts, hts, rfl⟩ := h
    simp [ih ts hts]

/-- A list of plain strings passes the join loop unchanged. -/
theorem joinGo_strs (ev : Value → Except PyErr Value) (ss : List Str) :
    IntrinsicFunctions.joinGo ev (ss.map .vstr) = .ok (true, ss.map .vstr) := by
  induction ss with
  | nil => rfl
  | cons s rest ih =>
    simp [IntrinsicFunctions.joinGo, IntrinsicFunctions.joinElem, Value.isDict, bindE,
      Value.isNull, ih]

/-- The `values` list of an `Fn::Join` node as it sits inside a
Document: its first element is an intrinsic `Ref` node. -/
def joinMutValues : List Value := [.vdict [(S "Ref", .vstr (S "P"))], .vstr (S "b")]

/-- A document declaring parameter `P` with default `v`. -/
def joinMutDoc : Value :=
  .vdict [(S "Parameters", .vdict [(S "P", .vdict [(S "Default", .vstr (S "v"))])])]

/-- C3 counterexample: `join` executes `values[index] = element`, so
evaluating an `Fn::Join` node rewrites its `values` list in place —
the list aliased by the Document changes from `[Ref-node, "b"]` to
`["v", "b"]` (the first element stops being a dict), refuting
"eval never mutates the Document". -/
theorem C3_eval_mutates_counterexample :
    IntrinsicFunctions.joinMut (fun x => IntrinsicFunctions.eval 9 [] joinMutDoc x)
        (.vstr (S ",")) joinMutValues =
      .ok (.vstr (S "v,b"), [.vstr (S "v"), .vstr (S "b")]) ∧
    joinMutValues.map Value.isDict = [true, false] ∧
    [Value.vstr (S "v"), Value.vstr (S "b")].map Value.isDict = [false, false] :=
  ⟨rfl, rfl, rfl⟩

/-- C3 amended: evaluation does mutate the Document — `Fn::Join` (and
`Fn::Select`) write resolved elements back into their argument list —
but a successful join leaves the list fully resolved to strings, so
re-evaluating the updated node yields the same result with no further
mutation. -/
theorem C3_join_stability (ev : Value → Except PyErr Value) (d : Value)
    (vs vs' : List Value) (s : Str)
    (h : IntrinsicFunctions.joinMut ev d vs = .ok (.vstr s, vs')) :
    IntrinsicFunctions.joinMut ev d vs' = .ok (.vstr s, vs') := by
  unfold IntrinsicFunctions.joinMut at h ⊢
  cases hg : IntrinsicFunctions.joinGo ev vs with
  | error e => rw [hg] at h; simp [bindE] at h
  | ok r =>
    rw [hg] at h
    simp only [bindE] at h
    by_cases hb : r.1 = true
    · rw [if_pos hb] at h
      cases hj : pyStrJoin d r.2 with
      | error e => rw [hj] at h; simp [bindE] at h
      | ok s0 =>
        rw [hj] at h
        simp only [bindE, Except.ok.injEq, Prod.mk.injEq, Value.vstr.injEq] at h
        obtain ⟨rfl, rfl⟩ := h
        have hstrs : ∃ ss : List Str, r.2 = ss.map .vstr := by
          cases d <;> simp [pyStrJoin] at hj
          cases hsl : strList r.2 with
          | none => rw [hsl] at hj; simp at hj
          | some ss => exact ⟨ss, strList_some_eq _ _ hsl⟩
        obtain ⟨ss, hss⟩ := hstrs
        rw [hss, joinGo_strs, ← hss]
        simp [bindE, hj]
    · rw [if_neg hb] at h
      simp at h

/-- C3 witness: re-evaluating the written-back list of the
counterexample join yields the same joined string. -/
theorem C3_join_stability_witness :
    IntrinsicFunctions.joinMut (fun x => IntrinsicFunctions.eval 9 [] joinMutDoc x)
        (.vstr (S ",")) [.vstr (S "v"), .vstr (S "b")] =
      .ok (.vstr (S "v,b"), [.vstr (S "v"), .vstr (S "b")]) :=
  C3_join_stability (fun x => IntrinsicFunctions.eval 9 [] joinMutDoc x)
    (.vstr (S ",")) joinMutValues [.vstr (S "v"), .vstr (S "b")] (S "v,b") rfl

/-! ### C4 — the environment map -/

/-- A template in the shape of the repository's `example3` fixture
expectations: a global environment variable holding an `Fn::GetAtt`
intrinsic that resolves to `v1`, a global `null`-valued variable, and a
function with its own variable. -/
def envTpl : Value :=
  .vdict [
    (S "Globals", .vdict [(S "Function", .vdict [(S "Environment", .vdict [(S "Variables",
      .vdict [(S "STAGE_NAME",
                 .vdict [(S "Fn::GetAtt", .vlist [.vstr (S "ApiGateway"), .vstr (S "StageName")])]),
              (S "NULLVAR", .vnull)])])])]),
    (S "Resources", .vdict [
      (S "ApiGateway", .vdict
        [(S "Type", .vstr (S "AWS::Serverless::Api")),
         (S "Properties", .vdict [(S "Name", .vstr (S "sam-api")),
                                  (S "StageName", .vstr (S "v1"))])]),
      (S "Fn1", .vdict
        [(S "Type", .vstr (S "AWS::Serverless::Function")),
         (S "Properties", .vdict [(S "Environment", .vdict [(S "Variables",
            .vdict [(S "LOG_LEVEL", .vstr (S "DEBUG"))])])])])])]

/-- C4: the code stringifies every merged variable with `str()` and
never calls the intrinsic evaluator, so an intrinsic-valued variable
becomes the repr of its raw node (not `v1`, although `eval` resolves
the same node to `v1`), and a `None`-valued variable is kept as the
string `None` instead of being omitted — contradicting the claim and
the repository's own `test_list_environment` expectations. -/
theorem C4_find_environment_bug :
    CloudformationTemplate.find_environment envTpl = .ok
      [(S "STAGE_NAME", .vstr (pyRepr
          (.vdict [(S "Fn::GetAtt", .vlist [.vstr (S "ApiGateway"), .vstr (S "StageName")])]))),
       (S "NULLVAR", .vstr (S "None")),
       (S "LOG_LEVEL", .vstr (S "DEBUG"))] ∧
    IntrinsicFunctions.eval 10 [] envTpl
        (.vdict [(S "Fn::GetAtt", .vlist [.vstr (S "ApiGateway"), .vstr (S "StageName")])]) =
      .ok (.vstr (S "v1")) ∧
    (pyRepr (.vdict [(S "Fn::GetAtt", .vlist [.vstr (S "ApiGateway"), .vstr (S "StageName")])])
        == S "v1") = false :=
  ⟨rfl, rfl, by decide⟩

/-! ### C1 — Fn::Sub substitution priority -/

/-- Resolution of one placeholder name as claim C1 states it:
(1) the varMap entry (an intrinsic value resolved first, `None`
short-circuiting), (2) for pseudo-parameter names the environment
variable named with `::` replaced by `_`, (3) a plain environment
variable; `none` when every route fails. -/
def subClaimResolve (ev : Value → Except PyErr Value) (env : Env)
    (varMap : List (Str × Value)) (name : Str) : Except PyErr (Option Str) :=
  match dictGet varMap name with
  | some w =>
    bindE (if w.isDict then ev w else .ok w) fun w' =>
    if w'.isNull then .ok none else .ok (some (pyStr w'))
  | none =>
    if name ∈ IntrinsicFunctions.pseudo_parameters then
      .ok (envGet env (strReplace name (S "::") (S "_")))
    else .ok (envGet env name)

/-- The substitution loop as claim C1 states it: every placeholder of
the (accumulated) string is replaced by its resolved value; an
unresolved placeholder makes the whole result `None`. -/
def subClaimGo (ev : Value → Except PyErr Value) (env : Env) (varMap : List (Str × Value)) :
    Str → List Str → Except PyErr (Option Str)
  | acc, [] => .ok (some acc)
  | acc, m :: rest =>
    bindE (subClaimResolve ev env varMap m) fun ov =>
    match ov with
    | none => .ok none
    | some v =>
      subClaimGo ev env varMap (strReplace acc (IntrinsicFunctions.placeholderOf m) v) rest

/-- `Fn::Sub` as claim C1 states it. -/
def subClaim (ev : Value → Except PyErr Value) (env : Env)
    (templateString : Str) (varMap : List (Str × Value)) : Except PyErr (Option Str) :=
  subClaimGo ev env varMap templateString (findMatches templateString)

/-- The two-variable sub node
`Fn::Sub ["$\x7bA\x7d-$\x7bB\x7d", [{A: x}, {B: y}]]`. -/
def subCexNode : Value :=
  .vdict [(S "Fn::Sub", .vlist [.vstr (S "$\x7bA\x7d-$\x7bB\x7d"),
    .vlist [.vdict [(S "A", .vstr (S "x"))], .vdict [(S "B", .vstr (S "y"))]]])]

/-- C1 counterexample: on the two-variable node the claim's
priority-ordered substitution yields `x-y`, but `eval` returns `None`:
`sub` rebuilds `result` from the ORIGINAL string on every loop
iteration, so the first substitution is lost and the `A` placeholder
falls through to the (empty) environment. -/
theorem C1_sub_counterexample :
    subClaim (fun x => IntrinsicFunctions.eval 9 [] (.vdict []) x) []
        (S "$\x7bA\x7d-$\x7bB\x7d") [(S "A", .vstr (S "x")), (S "B", .vstr (S "y"))] =
      .ok (some (S "x-y")) ∧
    IntrinsicFunctions.eval 10 [] (.vdict []) subCexNode = .ok .vnull :=
  ⟨rfl, rfl⟩

/-- The golden string-form sub node. -/
def subGoldenNode : Value :=
  .vdict [(S "Fn::Sub", .vstr (S "arn:$\x7bAWS::Region\x7d:foo"))]

/-- An unset `AWS_Region` propagates to `None`. -/
theorem replacePlaceholders_region_none (env : Env) (s : Str)
    (henv : envGet env (S "AWS_Region") = none) :
    IntrinsicFunctions.replacePlaceholdersGo env s [S "AWS::Region"] = .vnull := by
  unfold IntrinsicFunctions.replacePlaceholdersGo
  rw [if_pos (show (S "AWS::Region") ∈ IntrinsicFunctions.pseudo_parameters by decide)]
  rw [show strReplace (S "AWS::Region") (S "::") (S "_") = S "AWS_Region" from rfl, henv]

/-- C1 amended: the string form resolves every placeholder from the
environment (pseudo-parameters via `::` → `_`), any miss giving `None`
— the golden example holds.  In the list form each varMap entry's
value is resolved (`None` short-circuits) and its name must occur in
the original string, but every substitution is applied to the ORIGINAL
template string, so with several entries only the last substitution
survives and earlier placeholders fall through to the environment
routes (here `A` resolves to the environment's `z`, not the varMap's
`x`); a single-entry varMap behaves as the claim states. -/
theorem C1_sub_amended (fuel : Nat) (env : Env) (tpl : Value) :
    (envGet env (S "AWS_Region") = none →
      IntrinsicFunctions.eval (fuel + 1) env tpl subGoldenNode = .ok .vnull) ∧
    IntrinsicFunctions.eval 10 [(S "AWS_Region", S "us-east-1")] (.vdict []) subGoldenNode =
      .ok (.vstr (S "arn:us-east-1:foo")) ∧
    IntrinsicFunctions.eval 10 [(S "A", S "z")] (.vdict []) subCexNode =
      .ok (.vstr (S "z-y")) ∧
    IntrinsicFunctions.eval 10 [] (.vdict [])
        (.vdict [(S "Fn::Sub", .vlist [.vstr (S "$\x7bA\x7d-c"),
          .vlist [.vdict [(S "A", .vstr (S "x"))]]])]) = .ok (.vstr (S "x-c")) := by
  refine ⟨?_, by rfl, by rfl, by rfl⟩
  intro henv
  unfold subGoldenNode
  rw [eval_dispatch_sub]
  show Except.ok (IntrinsicFunctions.replace_placeholders env
    (S "arn:$\x7bAWS::Region\x7d:foo") [S "AWS::Region"]) = _
  rw [IntrinsicFunctions.replace_placeholders,
    replacePlaceholders_region_none env _ henv]

/-- C1 witness: the golden node with an empty environment. -/
theorem C1_sub_amended_witness :
    IntrinsicFunctions.eval 5 [] (.vdict []) subGoldenNode = .ok .vnull :=
  (C1_sub_amended 4 [] (.vdict [])).1 rfl

/-! ### C2 — the evaluator's failure surface -/

/-- A computation never raises one of the typed load errors. -/
def NoLoad {α : Type} (x : Except PyErr α) : Prop :=
  ∀ e, x = .error e → e.isLoadErr = false

/-- Successful computations raise nothing. -/
theorem noLoad_ok {α : Type} (a : α) : NoLoad (.ok a : Except PyErr α) := by
  intro e h
  exact absurd h (by simp)

/-- A non-load error satisfies `NoLoad`. -/
theorem noLoad_error {α : Type} (c : PyErr) (hc : c.isLoadErr = false) :
    NoLoad (.error c : Except PyErr α) := by
  intro e h
  simp only [Except.error.injEq] at h
  simp [← h, hc]

/-- `NoLoad` is preserved by sequencing. -/
theorem noLoad_bindE {α β : Type} (x : Except PyErr α) (f : α → Except PyErr β)
    (hx : NoLoad x) (hf : ∀ a, NoLoad (f a)) : NoLoad (bindE x f) := by
  intro e h
  cases x with
  | error e0 =>
    simp only [bindE, Except.error.injEq] at h
    subst h
    exact hx e0 rfl
  | ok a =>
    simp only [bindE] at h
    exact hf a e h

/-- List indexing raises only `IndexError`. -/
theorem noLoad_pyIndexList (xs : List Value) (i : Int) : NoLoad (pyIndexList xs i) := by
  intro e h
  simp only [pyIndexList] at h
  repeat' split at h
  all_goals
    first
      | (cases h <;> rfl)

/-- Membership tests raise only `TypeError`. -/
theorem noLoad_pyIn (key container : Value) : NoLoad (pyIn key container) := by
  intro e h
  unfold pyIn at h
  repeat' split at h
  all_goals
    first
      | (cases h <;> rfl)

/-- Subscription raises only built-in errors. -/
theorem noLoad_pyGetItem (container key : Value) : NoLoad (pyGetItem container key) := by
  intro e h
  unfold pyGetItem at h
  repeat' split at h
  all_goals
    first
      | (cases h <;> rfl)
      | exact noLoad_pyIndexList _ _ e h

/-- `.get` raises only built-in errors. -/
theorem noLoad_pyGetD (container key default : Value) :
    NoLoad (pyGetD container key default) := by
  intro e h
  unfold pyGetD at h
  repeat' split at h
  all_goals
    first
      | (cases h <;> rfl)

/-- Two-element unpacking raises only built-in errors. -/
theorem noLoad_unpack2 (v : Value) : NoLoad (unpack2 v) := by
  intro e h
  unfold unpack2 at h
  repeat' split at h
  all_goals
    first
      | (cases h <;> rfl)

/-- Three-element unpacking raises only built-in errors. -/
theorem noLoad_unpack3 (v : Value) : NoLoad (unpack3 v) := by
  intro e h
  unfold unpack3 at h
  repeat' split at h
  all_goals
    first
      | (cases h <;> rfl)

/-- Integer parsing raises only `ValueError`. -/
theorem noLoad_parseIntStr (s : Str) : NoLoad (parseIntStr s) := by
  intro e h
  simp only [parseIntStr] at h
  repeat' split at h
  all_goals
    first
      | (cases h <;> rfl)

/-- `int()` conversion raises only built-in errors. -/
theorem noLoad_pyInt (v : Value) : NoLoad (pyInt v) := by
  intro e h
  unfold pyInt at h
  repeat' split at h
  all_goals
    first
      | (cases h <;> rfl)
      | exact noLoad_parseIntStr _ e h

/-- `str.split` raises only `ValueError`. -/
theorem noLoad_pySplit (sep s : Str) : NoLoad (pySplit sep s) := by
  intro e h
  unfold pySplit at h
  repeat' split at h
  all_goals
    first
      | (cases h <;> rfl)

/-- `str.join` raises only built-in errors. -/
theorem noLoad_pyStrJoin (delimiter : Value) (xs : List Value) :
    NoLoad (pyStrJoin delimiter xs) := by
  intro e h
  unfold pyStrJoin at h
  repeat' split at h
  all_goals
    first
      | (cases h <;> rfl)

/-- Integer subscription raises only built-in errors. -/
theorem noLoad_pySubscriptInt (container : Value) (i : Int) :
    NoLoad (IntrinsicFunctions.pySubscriptInt container i) := by
  intro e h
  unfold IntrinsicFunctions.pySubscriptInt at h
  repeat' split at h
  all_goals
    first
      | (cases h <;> rfl)
      | exact noLoad_pyIndexList _ _ e h

/-- A branch between two successes raises nothing. -/
theorem noLoad_ifOk {α : Type} (c : Prop) [Decidable c] (a b : α) :
    NoLoad (if c then (.ok a : Except PyErr α) else .ok b) := by
  split
  · exact noLoad_ok _
  · exact noLoad_ok _

/-- `base64` raises only `AttributeError`. -/
theorem noLoad_base64 (v : Value) : NoLoad (IntrinsicFunctions.base64 v) := by
  intro e h
  unfold IntrinsicFunctions.base64 at h
  repeat' split at h
  all_goals (cases h <;> rfl)

/-- `evalIfDict` raises only what the evaluator raises. -/
theorem noLoad_evalIfDict (ev : Value → Except PyErr Value) (hev : ∀ x, NoLoad (ev x))
    (v : Value) : NoLoad (IntrinsicFunctions.evalIfDict ev v) := by
  unfold IntrinsicFunctions.evalIfDict
  split
  · refine noLoad_bindE _ _ (hev v) (fun w => ?_)
    split
    · exact noLoad_ok _
    · exact noLoad_ok _
  · exact noLoad_ok _

/-- `find_in_map` raises no load error. -/
theorem noLoad_find_in_map (ev : Value → Except PyErr Value) (hev : ∀ x, NoLoad (ev x))
    (tpl value : Value) : NoLoad (IntrinsicFunctions.find_in_map ev tpl value) := by
  unfold IntrinsicFunctions.find_in_map
  refine noLoad_bindE _ _ (noLoad_unpack3 _) (fun mts => ?_)
  refine noLoad_bindE _ _ (noLoad_pyGetD _ _ _) (fun mappings => ?_)
  refine noLoad_bindE _ _ (noLoad_pyIn _ _) (fun mem => ?_)
  split
  · exact noLoad_ok _
  · refine noLoad_bindE _ _ (noLoad_evalIfDict ev hev _) (fun otlk => ?_)
    cases otlk with
    | none => exact noLoad_ok _
    | some tlk =>
      refine noLoad_bindE _ _ (noLoad_pyGetItem _ _) (fun m1 => ?_)
      refine noLoad_bindE _ _ (noLoad_pyGetItem _ _) (fun inner => ?_)
      refine noLoad_bindE _ _ (noLoad_pyIn _ _) (fun mem2 => ?_)
      split
      · exact noLoad_ok _
      · refine noLoad_bindE _ _ (noLoad_pyGetItem _ _) (fun obj => ?_)
        exact noLoad_pyGetD _ _ _

/-- `ref` raises no load error. -/
theorem noLoad_ref (tpl value : Value) : NoLoad (IntrinsicFunctions.ref tpl value) := by
  unfold IntrinsicFunctions.ref
  refine noLoad_bindE _ _ (noLoad_pyGetD _ _ _) (fun params => ?_)
  refine noLoad_bindE _ _ (noLoad_pyIn _ _) (fun mem => ?_)
  split
  · refine noLoad_bindE _ _ (noLoad_pyGetItem _ _) (fun ps => ?_)
    refine noLoad_bindE _ _ (noLoad_pyGetItem _ _) (fun resource => ?_)
    exact noLoad_pyGetD _ _ _
  · exact noLoad_ok _

/-- `get_att` raises no load error. -/
theorem noLoad_get_att (ev : Value → Except PyErr Value) (hev : ∀ x, NoLoad (ev x))
    (tpl value : Value) : NoLoad (IntrinsicFunctions.get_att ev tpl value) := by
  unfold IntrinsicFunctions.get_att
  refine noLoad_bindE _ _ (noLoad_unpack2 _) (fun la => ?_)
  refine noLoad_bindE _ _ (noLoad_pyGetItem _ _) (fun resources => ?_)
  refine noLoad_bindE _ _ (noLoad_pyIn _ _) (fun mem => ?_)
  split
  · exact noLoad_ok _
  · refine noLoad_bindE _ _ (noLoad_evalIfDict ev hev _) (fun oan => ?_)
    cases oan with
    | none => exact noLoad_ok _
    | some an =>
      refine noLoad_bindE _ _ (noLoad_pyGetItem _ _) (fun resource => ?_)
      refine noLoad_bindE _ _ (noLoad_pyGetItem _ _) (fun props => ?_)
      refine noLoad_bindE _ _ (noLoad_pyIn _ _) (fun mem2 => ?_)
      split
      · exact noLoad_ok _
      · refine noLoad_bindE _ _ (noLoad_pyGetItem _ _) (fun av => ?_)
        refine noLoad_bindE _ _ (noLoad_evalIfDict ev hev _) (fun oav => ?_)
        cases oav with
        | none => exact noLoad_ok _
        | some av' => exact noLoad_ok _

/-- `joinElem` raises no load error. -/
theorem noLoad_joinElem (ev : Value → Except PyErr Value) (hev : ∀ x, NoLoad (ev x))
    (e : Value) : NoLoad (IntrinsicFunctions.joinElem ev e) := by
  unfold IntrinsicFunctions.joinElem
  split
  · exact hev e
  · exact noLoad_ok _

/-- The join loop raises no load error. -/
theorem noLoad_joinGo (ev : Value → Except PyErr Value) (hev : ∀ x, NoLoad (ev x))
    (vs : List Value) : NoLoad (IntrinsicFunctions.joinGo ev vs) := by
  induction vs with
  | nil => exact noLoad_ok _
  | cons v rest ih =>
    show NoLoad (bindE (IntrinsicFunctions.joinElem ev v) _)
    refine noLoad_bindE _ _ (noLoad_joinElem ev hev v) (fun e' => ?_)
    split
    · exact noLoad_ok _
    · exact noLoad_bindE _ _ ih (fun r => noLoad_ok _)

/-- `joinMut` raises no load error. -/
theorem noLoad_joinMut (ev : Value → Except PyErr Value) (hev : ∀ x, NoLoad (ev x))
    (delimiter : Value) (vs : List Value) :
    NoLoad (IntrinsicFunctions.joinMut ev delimiter vs) := by
  unfold IntrinsicFunctions.joinMut
  refine noLoad_bindE _ _ (noLoad_joinGo ev hev vs) (fun r => ?_)
  split
  · exact noLoad_bindE _ _ (noLoad_pyStrJoin _ _) (fun s => noLoad_ok _)
  · exact noLoad_ok _

/-- `join` raises no load error. -/
theorem noLoad_join (ev : Value → Except PyErr Value) (hev : ∀ x, NoLoad (ev x))
    (value : Value) : NoLoad (IntrinsicFunctions.join ev value) := by
  unfold IntrinsicFunctions.join
  refine noLoad_bindE _ _ (noLoad_unpack2 _) (fun dv => ?_)
  split
  · exact noLoad_bindE _ _ (noLoad_joinMut ev hev _ _) (fun r => noLoad_ok _)
  · exact noLoad_bindE _ _ (noLoad_pyStrJoin _ _) (fun s => noLoad_ok _)
  · exact noLoad_error _ rfl

/-- The select loop raises no load error. -/
theorem noLoad_selectGo (ev : Value → Except PyErr Value) (hev : ∀ x, NoLoad (ev x))
    (os : List Value) : NoLoad (IntrinsicFunctions.selectGo ev os) := by
  induction os with
  | nil => exact noLoad_ok _
  | cons o rest ih =>
    show NoLoad (if o.isDict then _ else _)
    split
    · refine noLoad_bindE _ _ (hev o) (fun e' => ?_)
      split
      · exact noLoad_ok _
      · exact noLoad_bindE _ _ ih (fun r => noLoad_ok _)
    · exact noLoad_bindE _ _ ih (fun r => noLoad_ok _)

/-- `select` raises no load error. -/
theorem noLoad_select (ev : Value → Except PyErr Value) (hev : ∀ x, NoLoad (ev x))
    (value : Value) : NoLoad (IntrinsicFunctions.select ev value) := by
  unfold IntrinsicFunctions.select
  refine noLoad_bindE _ _ (noLoad_unpack2 _) (fun iv => ?_)
  refine noLoad_bindE _ _ (noLoad_evalIfDict ev hev _) (fun oidx => ?_)
  obtain ⟨iv1, iv2⟩ := iv
  cases oidx with
  | none => exact noLoad_ok _
  | some index =>
    cases iv2 with
    | vdict kvs =>
      refine noLoad_bindE _ _ (hev _) (fun objs => ?_)
      split
      · exact noLoad_ok _
      · exact noLoad_bindE _ _ (noLoad_pyInt _) (fun i => noLoad_pySubscriptInt _ _)
    | vlist os =>
      refine noLoad_bindE _ _ (noLoad_selectGo ev hev _) (fun r => ?_)
      split
      · exact noLoad_ok _
      · exact noLoad_bindE _ _ (noLoad_pyInt _) (fun i => noLoad_pyIndexList _ _)
    | vstr s => exact noLoad_bindE _ _ (noLoad_pyInt _) (fun i => noLoad_pyIndexList _ _)
    | vnull => exact noLoad_error _ rfl
    | vbool b => exact noLoad_error _ rfl
    | vint n => exact noLoad_error _ rfl

/-- `split` raises no load error. -/
theorem noLoad_split (ev : Value → Except PyErr Value) (hev : ∀ x, NoLoad (ev x))
    (value : Value) : NoLoad (IntrinsicFunctions.split ev value) := by
  unfold IntrinsicFunctions.split
  refine noLoad_bindE _ _ (noLoad_unpack2 _) (fun dv => ?_)
  refine noLoad_bindE _ _ (noLoad_evalIfDict ev hev _) (fun osrc => ?_)
  cases osrc with
  | none => exact noLoad_ok _
  | some source =>
    cases source with
    | vstr s =>
      obtain ⟨dv1, dv2⟩ := dv
      cases dv1 with
      | vstr d => exact noLoad_bindE _ _ (noLoad_pySplit _ _) (fun parts => noLoad_ok _)
      | vnull => exact noLoad_error _ rfl
      | vbool b => exact noLoad_error _ rfl
      | vint n => exact noLoad_error _ rfl
      | vlist xs => exact noLoad_error _ rfl
      | vdict kvs => exact noLoad_error _ rfl
    | vnull => exact noLoad_error _ rfl
    | vbool b => exact noLoad_error _ rfl
    | vint n => exact noLoad_error _ rfl
    | vlist xs => exact noLoad_error _ rfl
    | vdict kvs => exact noLoad_error _ rfl

/-- The variable loop of `sub` raises no load error. -/
theorem noLoad_subVars (ev : Value → Except PyErr Value) (hev : ∀ x, NoLoad (ev x))
    (strng : Str) (vl : List Value) (reg : Option Str) :
    NoLoad (IntrinsicFunctions.subVars ev strng vl reg) := by
  induction vl generalizing reg with
  | nil => exact noLoad_ok _
  | cons vd rest ih =>
    cases vd with
    | vdict kvs =>
      cases kvs with
      | nil => exact noLoad_error _ rfl
      | cons kv krest =>
        obtain ⟨n, w⟩ := kv
        show NoLoad (bindE (IntrinsicFunctions.evalIfDict ev w) _)
        refine noLoad_bindE _ _ (noLoad_evalIfDict ev hev _) (fun ow => ?_)
        cases ow with
        | none => exact noLoad_ok _
        | some w' =>
          split
          · exact noLoad_ok _
          · split
            · exact ih _
            · exact noLoad_ok _
    | vnull => exact noLoad_error _ rfl
    | vbool b => exact noLoad_error _ rfl
    | vint n => exact noLoad_error _ rfl
    | vstr s => exact noLoad_error _ rfl
    | vlist xs => exact noLoad_error _ rfl

/-- `sub` raises no load error. -/
theorem noLoad_sub (ev : Value → Except PyErr Value) (hev : ∀ x, NoLoad (ev x))
    (env : Env) (value : Value) : NoLoad (IntrinsicFunctions.sub ev env value) := by
  cases value with
  | vlist l =>
    show NoLoad (bindE (unpack2 (.vlist l)) _)
    refine noLoad_bindE _ _ (noLoad_unpack2 _) (fun sv => ?_)
    obtain ⟨s1, s2⟩ := sv
    cases s2 with
    | vlist vl =>
      cases vl with
      | nil => exact noLoad_error _ rfl
      | cons vd vrest =>
        cases s1 with
        | vstr strng =>
          refine noLoad_bindE _ _ (noLoad_subVars ev hev _ _ _) (fun os => ?_)
          split
          · exact noLoad_ok _
          · exact noLoad_error _ rfl
          · exact noLoad_ifOk _ _ _
        | vnull => exact noLoad_error _ rfl
        | vbool b => exact noLoad_error _ rfl
        | vint n => exact noLoad_error _ rfl
        | vlist xs => exact noLoad_error _ rfl
        | vdict kvs => exact noLoad_error _ rfl
    | vstr t =>
      cases t with
      | nil => exact noLoad_error _ rfl
      | cons c cs => exact noLoad_error _ rfl
    | vdict kvs =>
      cases kvs with
      | nil => exact noLoad_error _ rfl
      | cons kv krest => exact noLoad_error _ rfl
    | vnull => exact noLoad_error _ rfl
    | vbool b => exact noLoad_error _ rfl
    | vint n => exact noLoad_error _ rfl
  | vstr s => exact noLoad_ok _
  | vnull => exact noLoad_error _ rfl
  | vbool b => exact noLoad_error _ rfl
  | vint n => exact noLoad_error _ rfl
  | vdict kvs => exact noLoad_error _ rfl

/-- C2 core: the evaluator never raises the typed load errors
`CFTemplateNotFound`, `CFBadTag`, `CFBadNode`. -/
theorem noLoad_eval (fuel : Nat) (env : Env) (tpl node : Value) :
    NoLoad (IntrinsicFunctions.eval fuel env tpl node) := by
  induction fuel generalizing env tpl node with
  | zero => exact noLoad_error _ rfl
  | succ f ih =>
    have hev : ∀ x, NoLoad (IntrinsicFunctions.eval f env tpl x) := fun x => ih env tpl x
    cases node with
    | vdict kvs =>
      cases kvs with
      | nil => exact noLoad_error _ rfl
      | cons kv rest =>
        show NoLoad (if kv.1 = S "Fn::Base64" then _ else _)
        split
        · exact noLoad_base64 _
        · split
          · exact noLoad_find_in_map _ hev tpl kv.2
          · split
            · exact noLoad_get_att _ hev tpl kv.2
            · split
              · exact noLoad_join _ hev kv.2
              · split
                · exact noLoad_select _ hev kv.2
                · split
                  · exact noLoad_split _ hev kv.2
                  · split
                    · exact noLoad_sub _ hev env kv.2
                    · split
                      · exact noLoad_ref tpl kv.2
                      · exact noLoad_ok _
    | vnull => exact noLoad_error _ rfl
    | vbool b => exact noLoad_error _ rfl
    | vint n => exact noLoad_error _ rfl
    | vstr s => exact noLoad_error _ rfl
    | vlist xs => exact noLoad_error _ rfl

/-- C2 counterexample: a syntactically valid single-key intrinsic node
on which `eval` raises (IndexError from the unchecked `Fn::Select`
subscript), refuting "never raises an exception". -/
theorem C2_eval_raises_counterexample :
    IntrinsicFunctions.eval 10 [] (.vdict [])
        (.vdict [(S "Fn::Select", .vlist [.vint 5, .vlist [.vstr (S "a"), .vstr (S "b")]])]) =
      .error .indexErr ∧
    raisesException (IntrinsicFunctions.eval 10 [] (.vdict [])
        (.vdict [(S "Fn::Select", .vlist [.vint 5, .vlist [.vstr (S "a"), .vstr (S "b")]])])) =
      true :=
  ⟨rfl, rfl⟩

/-- C2 amended: unknown function keys resolve to `None` (with a
warning), and the typed errors `CFTemplateNotFound`, `CFBadTag`,
`CFBadNode` are raised only during loading — the evaluator never
produces them (while the loader does raise them for bad nodes),
though evaluation can raise built-in exceptions such as the
counterexample's `IndexError`. -/
theorem C2_eval_failure_surface :
    (∀ (fuel : Nat) (env : Env) (tpl v : Value) (k : Str) (rest : List (Str × Value)),
      k ∉ IntrinsicFunctions.functionKeys →
      IntrinsicFunctions.eval (fuel + 1) env tpl (.vdict ((k, v) :: rest)) = .ok .vnull) ∧
    (∀ (fuel : Nat) (env : Env) (tpl node : Value) (e : PyErr),
      IntrinsicFunctions.eval fuel env tpl node = .error e → e.isLoadErr = false) ∧
    multi_constructor (S "Ref") .other = .error .cfBadTag ∧
    construct_getatt .other = .error .cfBadNode := by
  refine ⟨?_, ?_, by rfl, by rfl⟩
  · intro fuel env tpl v k rest hk
    simp only [IntrinsicFunctions.functionKeys, List.mem_cons, List.not_mem_nil, or_false,
      not_or] at hk
    obtain ⟨h1, h2, h3, h4, h5, h6, h7, h8⟩ := hk
    simp [IntrinsicFunctions.eval, h1, h2, h3, h4, h5, h6, h7, h8]
  · intro fuel env tpl node e h
    exact noLoad_eval fuel env tpl node e h

/-- C2 witness: an unimplemented `Fn::ImportValue` key resolves to
`None`, and the `IndexError` raised by the counterexample input is not
a typed load error. -/
theorem C2_eval_failure_surface_witness :
    IntrinsicFunctions.eval 1 [] (.vdict [])
        (.vdict [(S "Fn::ImportValue", .vstr (S "x"))]) = .ok .vnull ∧
    PyErr.isLoadErr .indexErr = false :=
  ⟨C2_eval_failure_surface.1 0 [] (.vdict []) (.vstr (S "x")) (S "Fn::ImportValue") []
      (by decide),
   C2_eval_failure_surface.2.1 10 [] (.vdict [])
      (.vdict [(S "Fn::Select", .vlist [.vint 5, .vlist [.vstr (S "a"), .vstr (S "b")]])])
      .indexErr rfl⟩

/-- C8 witness: a prefixed mapping-node tag and an exempt tag at
concrete inputs. -/
theorem C8_multi_constructor_witness :
    multi_constructor (S "ToJsonString") (.mapping [(.scalar (S "Name"), .scalar (S "Foo"))]) =
      .ok (.vdict [(S "Fn::ToJsonString", .vdict [(S "Name", .vstr (S "Foo"))])]) ∧
    multi_constructor (S "Ref") (.scalar (S "X")) = .ok (.vdict [(S "Ref", .vstr (S "X"))]) :=
  ⟨C8_multi_constructor.2.2.1 (S "ToJsonString") _ _ (by decide) (by decide) rfl,
   C8_multi_constructor.2.2.2.1 (S "Ref") (S "X") (by decide)⟩

end FasterSam
